import Mathlib

/-!
Asynchronous TCP client and server: embedding and verified properties.

Shallow embedding of `src/asynchronousnetworking/asynctcpclient.hpp` and
`src/asynchronousnetworking/asynctcpserver.hpp`.

Modelling conventions.

* Every object reached through a pointer lives in a store and is named by its
  index in that store (`std::shared_ptr<Session>` is an index into
  `AsyncTCPClient.sessions`).
* Everything the code does to the outside world (socket calls, mutex
  operations, asynchronous operations issued, the user callback) is appended, in
  program order, to a trace of events.
* An asynchronous operation is recorded as outstanding on its socket when it is
  issued; the reactor later delivers its completion with an outcome chosen by
  the environment (`AsyncTCPClient.complete`), which runs the body of the
  completion lambda.
* A library call that can throw takes what the library reports as an input and
  the function returns `Except`.
* Where threads overlap, each thread has a program point named after the
  source line it is about to run, one move runs one statement, and the lock of
  a mutex that is owned cannot move (`World`, `AcceptorRun`).
* Strings and stream buffers are lists of characters.
-/

namespace Networking

/-! ## Error codes -/

/-- Error categories of `boost::system::error_code` used by asio. -/
inductive ErrorCategory where
  | system
  | generic
  | netdb
  | addrinfo
  | misc
  deriving DecidableEq, Repr

/-- Value of `boost::system::error_code`: a numeric value and a category. -/
structure ErrorCode where
  value : Int
  category : ErrorCategory
  deriving DecidableEq, Repr

/-- Default constructed `system::error_code`: value 0 in the system category. -/
def ErrorCode.success : ErrorCode := ⟨0, ErrorCategory.system⟩

/-- Constant `asio::error::operation_aborted` (ECANCELED, system category). -/
def operation_aborted : ErrorCode := ⟨125, ErrorCategory.system⟩

/-- Constant `asio::error::connection_refused` (ECONNREFUSED, system category). -/
def connection_refused : ErrorCode := ⟨111, ErrorCategory.system⟩

/-- Constant `asio::error::eof` (value 2 of the misc category). -/
def eof : ErrorCode := ⟨2, ErrorCategory.misc⟩

/-- The delimiter byte of the wire format. -/
def newline : Char := Char.ofNat 10

/-- Characters that `std::getline` stores: everything before the first newline. -/
def getlineText : List Char → List Char
  | [] => []
  | ch :: rest => if ch = newline then [] else ch :: getlineText rest

/-- What `std::getline` leaves in the stream: everything after the first
newline, which is extracted and discarded. -/
def getlineRest : List Char → List Char
  | [] => []
  | ch :: rest => if ch = newline then rest else getlineRest rest

/-! ## The registry map `std::map<int, std::shared_ptr<Session>>` -/

/-- Conversion of an `unsigned int` request id to the `int` key of the map. -/
def toKey (request_id : Nat) : Int :=
  if request_id % 2 ^ 32 < 2 ^ 31 then ((request_id % 2 ^ 32 : Nat) : Int)
  else ((request_id % 2 ^ 32 : Nat) : Int) - 2 ^ 32

/-- Method `std::map::find`: the mapped value when the key is present. -/
def mapFind (m : List (Int × Nat)) (k : Int) : Option Nat :=
  match m with
  | [] => none
  | (j, v) :: rest => if j = k then some v else mapFind rest k

/-- Method `std::map::erase` of the entry with key `k`. -/
def mapErase (m : List (Int × Nat)) (k : Int) : List (Int × Nat) :=
  match m with
  | [] => []
  | (j, v) :: rest => if j = k then mapErase rest k else (j, v) :: mapErase rest k

/-- Statement `m[k] = v`: insert the key or overwrite the value it has. -/
def mapAssign (m : List (Int × Nat)) (k : Int) (v : Nat) : List (Int × Nat) :=
  (k, v) :: mapErase m k

/-! ## Client data model -/

/-- Asynchronous operations of the client chain. -/
inductive AsyncOp where
  | connect
  | write
  | read
  deriving DecidableEq, Repr

/-- Observable state of `asio::ip::tcp::socket`: whether it is open and which
asynchronous operation is outstanding on it. -/
structure Socket where
  is_open : Bool
  outstanding : Option AsyncOp
  deriving DecidableEq, Repr

/-- Struct `Session` (asynctcpclient.hpp, lines 21-49). The callback is a
function pointer, modelled by its address. -/
structure Session where
  m_sock : Socket
  m_ep : String × Nat
  m_request : List Char
  m_id : Nat
  m_response_buf : List Char
  m_response : List Char
  m_ec : ErrorCode
  m_callback : Nat
  m_was_cacelled : Bool
  deriving DecidableEq, Repr

/-- Constructor `Session::Session` (lines 36-48). -/
def Session.new (raw_ip_address : String) (port_num : Nat) (request : List Char)
    (id : Nat) (callback : Nat) : Session :=
  { m_sock := ⟨false, none⟩
    m_ep := (raw_ip_address, port_num)
    m_request := request
    m_id := id
    m_response_buf := []
    m_response := []
    m_ec := ErrorCode.success
    m_callback := callback
    m_was_cacelled := false }

/-- Effects of the client on the outside world, in program order. The callback
event records which session object called, the arguments passed, and the
content of `m_active_sessions` at the instant of the call. -/
inductive Event where
  | sock_open (session : Nat)
  | sock_shutdown (session : Nat)
  | sock_cancel (session : Nat)
  | lock_registry
  | unlock_registry
  | lock_session (session : Nat)
  | unlock_session (session : Nat)
  | async_connect (session : Nat)
  | async_write (session : Nat)
  | async_read_until (session : Nat)
  | callback (session : Nat) (fn : Nat) (request_id : Nat) (response : List Char)
      (ec : ErrorCode) (active : List (Int × Nat))
  deriving DecidableEq, Repr

/-- Class `AsyncTCPClient` (lines 61-228): the session store, the registry
`m_active_sessions`, and the trace of effects. -/
structure AsyncTCPClient where
  sessions : List Session
  m_active_sessions : List (Int × Nat)
  trace : List Event
  deriving DecidableEq, Repr

/-- A client that has not been used yet. -/
def AsyncTCPClient.empty : AsyncTCPClient := ⟨[], [], []⟩

/-- Append one effect to the trace. -/
def AsyncTCPClient.emit (c : AsyncTCPClient) (e : Event) : AsyncTCPClient :=
  { c with trace := c.trace ++ [e] }

/-- Write through a session pointer. -/
def AsyncTCPClient.modify (c : AsyncTCPClient) (session : Nat) (f : Session → Session) :
    AsyncTCPClient :=
  { c with sessions := c.sessions.modify f session }

/-! ## Client operations -/

/-- Method `AsyncTCPClient::onRequestComplete` (lines 77-100). -/
def AsyncTCPClient.onRequestComplete (c : AsyncTCPClient) (session : Nat) : AsyncTCPClient :=
  match c.sessions[session]? with
  | none => c
  | some s =>
    -- session->m_sock.shutdown(shutdown_both, ignored_ec);
    let c := c.emit (Event.sock_shutdown session)
    -- std::unique_lock<std::mutex> lock(m_active_sessions_gaurd);
    let c := c.emit Event.lock_registry
    -- auto it = m_active_sessions.find(session->m_id); if (it != end) erase(it);
    let c := match mapFind c.m_active_sessions (toKey s.m_id) with
      | some _ => { c with m_active_sessions := mapErase c.m_active_sessions (toKey s.m_id) }
      | none => c
    -- lock.unlock();
    let c := c.emit Event.unlock_registry
    let ec := if s.m_ec.value == 0 && s.m_was_cacelled then operation_aborted else s.m_ec
    -- session->m_callback(session->m_id, session->m_response, ec);
    c.emit (Event.callback session s.m_callback s.m_id s.m_response ec c.m_active_sessions)

/-- Method `AsyncTCPClient::cancelrequest` (lines 126-138). Both locks are
released at the end of their scopes. -/
def AsyncTCPClient.cancelrequest (c : AsyncTCPClient) (request_id : Nat) : AsyncTCPClient :=
  let c := c.emit Event.lock_registry
  let c := match mapFind c.m_active_sessions (toKey request_id) with
    | some session =>
      let c := c.emit (Event.lock_session session)
      let c := c.modify session (fun s => { s with m_was_cacelled := true })
      let c := c.emit (Event.sock_cancel session)
      c.emit (Event.unlock_session session)
    | none => c
  c.emit Event.unlock_registry

/-- Method `AsyncTCPClient::emulateLongComputationOp` (lines 159-175) up to and
including the issue of `async_connect`; the three nested completion lambdas are
`onConnect`, `onWrite` and `onRead` below. Two library calls in it can throw
`system::system_error`, and what they report is an input: `from_string_ec` is
the code `asio::ip::address::from_string` reports for `raw_ip_address` in the
constructor of `Session` (line 43), `open_ec` the code `m_sock.open` reports
(line 167). A non-zero value is thrown, the statements after it do not run, and
the result is the code thrown; otherwise the function returns `void` and the
result is the client afterwards. -/
def AsyncTCPClient.emulateLongComputationOp (c : AsyncTCPClient) (raw_ip_address : String)
    (port_num : Nat) (callback : Nat) (request_id : Nat) (from_string_ec open_ec : ErrorCode) :
    Except ErrorCode AsyncTCPClient :=
  let request := "Hello Server\n".toList
  -- std::make_shared<Session>(...): the constructor parses the address
  if from_string_ec.value != 0 then
    Except.error from_string_ec
  else
    let session := c.sessions.length
    let c := { c with sessions := c.sessions ++
      [Session.new raw_ip_address port_num request request_id callback] }
    -- session->m_sock.open(session->m_ep.protocol());
    if open_ec.value != 0 then
      Except.error open_ec
    else
      let c := c.modify session (fun s => { s with m_sock := { s.m_sock with is_open := true } })
      let c := c.emit (Event.sock_open session)
      -- lock; m_active_sessions[request_id] = session; unlock
      let c := c.emit Event.lock_registry
      let c := { c with
        m_active_sessions := mapAssign c.m_active_sessions (toKey request_id) session }
      let c := c.emit Event.unlock_registry
      -- session->m_sock.async_connect(session->m_ep, ...)
      let c := c.modify session
        (fun s => { s with m_sock := { s.m_sock with outstanding := some AsyncOp.connect } })
      Except.ok (c.emit (Event.async_connect session))

/-- Completion lambda of `async_read_until` (lines 211-224). -/
def AsyncTCPClient.onRead (c : AsyncTCPClient) (session : Nat) (ec : ErrorCode) :
    AsyncTCPClient :=
  let c :=
    if ec.value != 0 then
      c.modify session (fun s => { s with m_ec := ec })
    else
      -- std::istream is(&session->m_response_buf); std::getline(is, session->m_response);
      c.modify session (fun s => { s with
        m_response := getlineText s.m_response_buf
        m_response_buf := getlineRest s.m_response_buf })
  c.onRequestComplete session

/-- Completion lambda of `async_write` (lines 194-225). The session lock taken
at line 203 is released when the lambda returns. -/
def AsyncTCPClient.onWrite (c : AsyncTCPClient) (session : Nat) (ec : ErrorCode) :
    AsyncTCPClient :=
  match c.sessions[session]? with
  | none => c
  | some s =>
    if ec.value != 0 then
      let c := c.modify session (fun s => { s with m_ec := ec })
      c.onRequestComplete session
    else
      let c := c.emit (Event.lock_session session)
      if s.m_was_cacelled then
        let c := c.onRequestComplete session
        c.emit (Event.unlock_session session)
      else
        let c := c.modify session
          (fun s => { s with m_sock := { s.m_sock with outstanding := some AsyncOp.read } })
        let c := c.emit (Event.async_read_until session)
        c.emit (Event.unlock_session session)

/-- Completion lambda of `async_connect` (lines 176-226). The session lock taken
at line 185 is released when the lambda returns. -/
def AsyncTCPClient.onConnect (c : AsyncTCPClient) (session : Nat) (ec : ErrorCode) :
    AsyncTCPClient :=
  match c.sessions[session]? with
  | none => c
  | some s =>
    if ec.value != 0 then
      let c := c.modify session (fun s => { s with m_ec := ec })
      c.onRequestComplete session
    else
      let c := c.emit (Event.lock_session session)
      if s.m_was_cacelled then
        let c := c.onRequestComplete session
        c.emit (Event.unlock_session session)
      else
        let c := c.modify session
          (fun s => { s with m_sock := { s.m_sock with outstanding := some AsyncOp.write } })
        let c := c.emit (Event.async_write session)
        c.emit (Event.unlock_session session)

/-- The reactor delivers the completion of the operation outstanding on the
socket of `session`: the operation stops being outstanding and its completion
lambda runs with the error code `ec` reported by the transport. For a read,
`data` is what the transport placed in `m_response_buf`. Nothing is delivered
to a session with no outstanding operation. -/
def AsyncTCPClient.complete (c : AsyncTCPClient) (session : Nat) (ec : ErrorCode)
    (data : List Char) : AsyncTCPClient :=
  match c.sessions[session]? with
  | none => c
  | some s =>
    match s.m_sock.outstanding with
    | none => c
    | some AsyncOp.connect =>
      (c.modify session
        (fun s => { s with m_sock := { s.m_sock with outstanding := none } })).onConnect session ec
    | some AsyncOp.write =>
      (c.modify session
        (fun s => { s with m_sock := { s.m_sock with outstanding := none } })).onWrite session ec
    | some AsyncOp.read =>
      (c.modify session
        (fun s => { s with
          m_sock := { s.m_sock with outstanding := none }
          m_response_buf := s.m_response_buf ++ data })).onRead session ec

/-! ## Reading a trace -/

/-- The user callback is invoked. -/
def Event.isCallback : Event → Bool
  | Event.callback _ _ _ _ _ _ => true
  | _ => false

/-- First statement of `onRequestComplete`: one per invocation of it. -/
def Event.isRequestComplete : Event → Bool
  | Event.sock_shutdown _ => true
  | _ => false

/-- An asynchronous operation is issued. -/
def Event.isIssue : Event → Bool
  | Event.async_connect _ => true
  | Event.async_write _ => true
  | Event.async_read_until _ => true
  | _ => false

/-- Invocations of the user callback in a trace, in order. -/
def callbacks (t : List Event) : List Event := t.filter Event.isCallback

/-- Invocations of `onRequestComplete` in a trace, in order. -/
def requestCompletes (t : List Event) : List Event := t.filter Event.isRequestComplete

/-- Asynchronous operations issued in a trace, in order. -/
def issues (t : List Event) : List Event := t.filter Event.isIssue

/-- The operation outstanding on the socket of a session. -/
def AsyncTCPClient.outstanding (c : AsyncTCPClient) (session : Nat) : Option AsyncOp :=
  match c.sessions[session]? with
  | none => none
  | some s => s.m_sock.outstanding

/-! ## Server data model (asynctcpserver.hpp) -/

/-- Asynchronous operations of one connection handler. -/
inductive ServiceOp where
  | read
  | write
  deriving DecidableEq, Repr

/-- Effects of a `Service` object, in program order. `cout_error` is the line
written to `std::cout` for an error (its fixed text and the error value),
`cout_request` the request line echoed by `processRequest`, `delete_this` the
statement of `onFinish`. -/
inductive ServiceEvent where
  | cout_error (text : String) (value : Int)
  | cout_request (line : List Char)
  | async_read_until
  | async_write (data : List Char)
  | delete_this
  deriving DecidableEq, Repr

/-- Class `Service` (lines 18-96): its three members, the operation outstanding
on its socket, whether the object has been deleted, and its effects. -/
structure Service where
  m_sock : Nat
  m_response : List Char
  m_request : List Char
  outstanding : Option ServiceOp
  deleted : Bool
  log : List ServiceEvent
  deriving DecidableEq, Repr

/-- Constructor `Service::Service` (lines 83-85). -/
def Service.new (sock : Nat) : Service :=
  { m_sock := sock, m_response := [], m_request := [], outstanding := none,
    deleted := false, log := [] }

/-- Method `Service::onFinish` (lines 76-79). -/
def Service.onFinish (sv : Service) : Service :=
  { sv with deleted := true, log := sv.log ++ [ServiceEvent.delete_this] }

/-- Method `Service::processRequest` (lines 62-74): takes one line out of the
request buffer, prints it, and returns the fixed response. -/
def Service.processRequest (sv : Service) : Service × List Char :=
  let msg := getlineText sv.m_request
  let sv := { sv with
    m_request := getlineRest sv.m_request
    log := sv.log ++ [ServiceEvent.cout_request msg] }
  (sv, "Hello Client\n".toList)

/-- Completion lambda of the `async_write` issued by `onRequestRecieved`
(lines 41-48). -/
def Service.onWritten (sv : Service) (ec : ErrorCode) : Service :=
  if ec.value != 0 then
    { sv with log := sv.log ++ [ServiceEvent.cout_error "Error code! Error code = " ec.value] }
  else sv

/-- Method `Service::onRequestRecieved` (lines 25-49). -/
def Service.onRequestRecieved (sv : Service) (ec : ErrorCode) : Service :=
  if ec.value != 0 then
    let sv := { sv with log := sv.log ++
      [ServiceEvent.cout_error "Error code in Service class ! Error code = " ec.value] }
    sv.onFinish
  else
    -- m_response = processRequest(m_request);
    let (sv, response) := sv.processRequest
    let sv := { sv with m_response := response }
    -- asio::async_write(*m_sock.get(), asio::buffer(m_response), [this](...) {...});
    { sv with
      outstanding := some ServiceOp.write
      log := sv.log ++ [ServiceEvent.async_write sv.m_response] }

/-- Method `Service::onResponseSent` (lines 51-60). -/
def Service.onResponseSent (sv : Service) (ec : ErrorCode) : Service :=
  let sv :=
    if ec.value != 0 then
      { sv with log := sv.log ++ [ServiceEvent.cout_error "Error code! Error code = " ec.value] }
    else sv
  sv.onFinish

/-- Method `Service::startHandling` (lines 87-95); the completion lambda calls
`onRequestRecieved`. -/
def Service.startHandling (sv : Service) : Service :=
  { sv with
    outstanding := some ServiceOp.read
    log := sv.log ++ [ServiceEvent.async_read_until] }

/-- The reactor delivers the completion of the operation outstanding on the
socket of the service and runs the completion lambda registered for it. For a
read, `data` is what the transport placed in `m_request`. -/
def Service.complete (sv : Service) (ec : ErrorCode) (data : List Char) : Service :=
  match sv.outstanding with
  | none => sv
  | some ServiceOp.read =>
    { sv with outstanding := none, m_request := sv.m_request ++ data }.onRequestRecieved ec
  | some ServiceOp.write =>
    { sv with outstanding := none }.onWritten ec

/-- One connection handled from start to the end of its chain: the read
completes with `read_ec` and `data`, then the write, if one was issued,
completes with `write_ec`. -/
def Service.run (sock : Nat) (read_ec : ErrorCode) (data : List Char) (write_ec : ErrorCode) :
    Service :=
  (((Service.new sock).startHandling).complete read_ec data).complete write_ec []

/-- Number of times `onFinish` ran. -/
def Service.finishCount (sv : Service) : Nat :=
  (sv.log.filter (fun e => e = ServiceEvent.delete_this)).length

/-- Effects of the acceptor, in program order. -/
inductive AcceptorEvent where
  | listen (backlog : Nat)
  | async_accept (sock : Nat)
  | cout_error (value : Int)
  | close
  deriving DecidableEq, Repr

/-- Class `Acceptor` (lines 98-157): the stop flag, the state of `m_acceptor`,
the sockets and `Service` objects it created, and its effects. -/
structure Acceptor where
  port_num : Nat
  m_isStopped : Bool
  is_open : Bool
  outstanding : Option Nat
  next_sock : Nat
  services : List Service
  log : List AcceptorEvent
  deriving DecidableEq, Repr

/-- Constructor `Acceptor::Acceptor` (lines 141-145). -/
def Acceptor.new (port_num : Nat) : Acceptor :=
  { port_num := port_num, m_isStopped := false, is_open := true, outstanding := none,
    next_sock := 0, services := [], log := [] }

/-- Method `Acceptor::InitAccept` (lines 105-114). -/
def Acceptor.InitAccept (a : Acceptor) : Acceptor :=
  let sock := a.next_sock
  { a with
    next_sock := a.next_sock + 1
    outstanding := some sock
    log := a.log ++ [AcceptorEvent.async_accept sock] }

/-- Method `Acceptor::onAccept` (lines 116-137). -/
def Acceptor.onAccept (a : Acceptor) (ec : ErrorCode) (sock : Nat) : Acceptor :=
  let a :=
    if ec.value == 0 then
      -- (new Service(sock))->startHandling();
      { a with services := a.services ++ [(Service.new sock).startHandling] }
    else
      { a with log := a.log ++ [AcceptorEvent.cout_error ec.value] }
  if !a.m_isStopped then
    a.InitAccept
  else
    { a with is_open := false, log := a.log ++ [AcceptorEvent.close] }

/-- Method `Acceptor::start` (lines 147-151). -/
def Acceptor.start (a : Acceptor) : Acceptor :=
  { a with log := a.log ++ [AcceptorEvent.listen 30] }.InitAccept

/-- Method `Acceptor::stop` (lines 153-156). -/
def Acceptor.stop (a : Acceptor) : Acceptor :=
  { a with m_isStopped := true }

/-- The reactor delivers the completion of the outstanding accept. -/
def Acceptor.complete (a : Acceptor) (ec : ErrorCode) : Acceptor :=
  match a.outstanding with
  | none => a
  | some sock => { a with outstanding := none }.onAccept ec sock

/-- A worker thread of the pool; each one runs `m_ios.run()`. -/
inductive WorkerThread where
  | ios_run
  deriving DecidableEq, Repr

/-- Class `AsyncTCPServer` (lines 159-201). -/
structure AsyncTCPServer where
  acc : Option Acceptor
  m_thread_pool : List WorkerThread
  ios_stopped : Bool
  deriving DecidableEq, Repr

/-- Constructor `AsyncTCPServer::AsyncTCPServer` (lines 169-172). -/
def AsyncTCPServer.new : AsyncTCPServer :=
  { acc := none, m_thread_pool := [], ios_stopped := false }

/-- The loop of `AsyncTCPServer::start` (lines 183-188), from counter value `i`. -/
def AsyncTCPServer.launchLoop (thread_pool_size : Nat) (i : Nat) (pool : List WorkerThread) :
    List WorkerThread :=
  if i < thread_pool_size then
    AsyncTCPServer.launchLoop thread_pool_size (i + 1) (pool ++ [WorkerThread.ios_run])
  else pool
termination_by thread_pool_size - i

/-- Method `AsyncTCPServer::start` (lines 174-189). The value returned by
`std::thread::hardware_concurrency()` is the parameter `hardware_concurrency`;
the product with 2 is taken in `unsigned int`. -/
def AsyncTCPServer.start (srv : AsyncTCPServer) (port_num : Nat) (thread_pool_size : Nat)
    (hardware_concurrency : Nat) : AsyncTCPServer :=
  let thread_pool_size :=
    if thread_pool_size == 0 || thread_pool_size > (2 * hardware_concurrency) % 2 ^ 32 then 2
    else thread_pool_size
  let srv := { srv with acc := some (Acceptor.new port_num).start }
  { srv with m_thread_pool := AsyncTCPServer.launchLoop thread_pool_size 0 srv.m_thread_pool }

/-- Method `AsyncTCPServer::stop` (lines 191-200). -/
def AsyncTCPServer.stop (srv : AsyncTCPServer) : AsyncTCPServer :=
  { srv with acc := srv.acc.map Acceptor.stop, ios_stopped := true }

/-! ## Derived notions used in the statements -/

/-- Classification that `onRequestComplete` passes to the callback (lines 91-96). -/
def Session.classification (s : Session) : ErrorCode :=
  if s.m_ec.value == 0 && s.m_was_cacelled then operation_aborted else s.m_ec

/-- What can happen to a client: a call of `emulateLongComputationOp` that
returns, a call of `cancelrequest`, or the reactor delivering a completion to a
session. A call of `emulateLongComputationOp` that throws leaves the client as
it was, so it adds no state to those a history reaches. -/
inductive Action where
  | submit (raw_ip_address : String) (port_num : Nat) (callback : Nat) (request_id : Nat)
  | cancel (request_id : Nat)
  | deliver (session : Nat) (ec : ErrorCode) (data : List Char)
  deriving DecidableEq, Repr

/-- One action applied to a client. -/
def AsyncTCPClient.step (c : AsyncTCPClient) : Action → AsyncTCPClient
  | Action.submit raw_ip_address port_num callback request_id =>
    match c.emulateLongComputationOp raw_ip_address port_num callback request_id
      ErrorCode.success ErrorCode.success with
    | Except.ok c1 => c1
    | Except.error _ => c
  | Action.cancel request_id => c.cancelrequest request_id
  | Action.deliver session ec data => c.complete session ec data

/-- A history of actions applied in order. -/
def AsyncTCPClient.run (c : AsyncTCPClient) : List Action → AsyncTCPClient
  | [] => c
  | a :: rest => (c.step a).run rest

/-! ## Example states, after testclient.cpp -/

/-- Address standing for the function `handler` of testclient.cpp. -/
def handler : Nat := 4096

/-- A client with one session in flight under request id 1, as after the
first call of `main` in testclient.cpp. -/
def oneInFlight : AsyncTCPClient :=
  AsyncTCPClient.empty.step (Action.submit "127.0.0.1" 8080 handler 1)

/-- The client with id 1 in flight after `cancelrequest(1)`, before the
connect completes. -/
def oneCancelled : AsyncTCPClient :=
  oneInFlight.cancelrequest 1

/-- The client with id 1 in flight after its connect and its write have
succeeded: the read is outstanding. -/
def oneReading : AsyncTCPClient :=
  (oneInFlight.complete 0 ErrorCode.success []).complete 0 ErrorCode.success []

/-! ## Runs of an acceptor -/

/-- Program points of the worker thread inside `Acceptor::onAccept`; the
number is the source line about to run. -/
inductive OnAcceptPc where
  | line_118 (ec : ErrorCode) (sock : Nat)
  | line_129
  | line_131
  | line_135
  deriving DecidableEq, Repr

/-- An acceptor together with the program point of the worker thread that is
inside `onAccept`, if one is. -/
structure AcceptorRun where
  acceptor : Acceptor
  pc : Option OnAcceptPc
  deriving DecidableEq, Repr

/-- What can happen next to a started acceptor: the main thread calls `stop`
(the atomic store of line 155); the reactor hands the completion of the
outstanding accept to a worker, which enters `onAccept`; or the worker inside
`onAccept` runs to its next program point. -/
inductive AcceptorMove where
  | stop
  | deliver (ec : ErrorCode)
  | advance
  deriving DecidableEq, Repr

/-- One move. Inside `onAccept`: lines 118-126 create and start the `Service`
or log the error; line 129 loads the stop flag and chooses the branch; line 131
is `InitAccept()`; line 135 is `m_acceptor.close()`. -/
def AcceptorRun.move (r : AcceptorRun) : AcceptorMove → AcceptorRun
  | AcceptorMove.stop => { r with acceptor := r.acceptor.stop }
  | AcceptorMove.deliver ec =>
    match r.pc, r.acceptor.outstanding with
    | none, some sock =>
      { acceptor := { r.acceptor with outstanding := none }
        pc := some (OnAcceptPc.line_118 ec sock) }
    | _, _ => r
  | AcceptorMove.advance =>
    match r.pc with
    | none => r
    | some (OnAcceptPc.line_118 ec sock) =>
      { acceptor :=
          if ec.value == 0 then
            { r.acceptor with
              services := r.acceptor.services ++ [(Service.new sock).startHandling] }
          else
            { r.acceptor with log := r.acceptor.log ++ [AcceptorEvent.cout_error ec.value] }
        pc := some OnAcceptPc.line_129 }
    | some OnAcceptPc.line_129 =>
      { r with pc :=
          if !r.acceptor.m_isStopped then some OnAcceptPc.line_131
          else some OnAcceptPc.line_135 }
    | some OnAcceptPc.line_131 =>
      { acceptor := r.acceptor.InitAccept, pc := none }
    | some OnAcceptPc.line_135 =>
      { acceptor := { r.acceptor with
          is_open := false, log := r.acceptor.log ++ [AcceptorEvent.close] }
        pc := none }

/-- A list of moves applied in order. -/
def AcceptorRun.run (r : AcceptorRun) : List AcceptorMove → AcceptorRun
  | [] => r
  | x :: rest => (r.move x).run rest

/-- An accept is issued. -/
def AcceptorEvent.isAccept : AcceptorEvent → Bool
  | AcceptorEvent.async_accept _ => true
  | _ => false

/-- The listening transport is closed. -/
def AcceptorEvent.isClose : AcceptorEvent → Bool
  | AcceptorEvent.close => true
  | _ => false

/-- Accepts issued in a log, in order. -/
def acceptsIssued (log : List AcceptorEvent) : List AcceptorEvent :=
  log.filter AcceptorEvent.isAccept

/-- Closes of the listening transport in a log. -/
def closes (log : List AcceptorEvent) : List AcceptorEvent :=
  log.filter AcceptorEvent.isClose

/-- The acceptor of a server started on port 8080, as in testserver.cpp. -/
def startedAcceptor : Acceptor :=
  (Acceptor.new 8080).start

/-- The started acceptor after its first accept has completed with success,
the worker inside `onAccept` has loaded the stop flag (unset) at line 129, and
the main thread has then called `stop`: the flag is set and the worker is about
to run line 131. -/
def stoppedAfterLoad : AcceptorRun :=
  (AcceptorRun.mk startedAcceptor none).run
    [AcceptorMove.deliver ErrorCode.success, AcceptorMove.advance, AcceptorMove.advance,
      AcceptorMove.stop]

/-! ## Lock order in a trace -/

/-- Scan of a trace with the list of session locks currently held: false as
soon as the registry lock is taken while some session lock is held. -/
def lockOrderOk : List Nat → List Event → Bool
  | _, [] => true
  | held, Event.lock_session session :: rest => lockOrderOk (session :: held) rest
  | held, Event.unlock_session session :: rest => lockOrderOk (held.erase session) rest
  | held, Event.lock_registry :: rest => held.isEmpty && lockOrderOk held rest
  | held, _ :: rest => lockOrderOk held rest

/-- The client with id 1 in flight after its connect has succeeded and
`cancelrequest(1)` has run: the write is outstanding and the flag is set. -/
def oneCancelledWriting : AsyncTCPClient :=
  (oneInFlight.complete 0 ErrorCode.success []).cancelrequest 1

/-! ## Threads of the client and mutexes that block -/

/-- The two completion lambdas that hold a cancellation checkpoint: the one of
`async_connect` (lines 176-226) and the one of `async_write` (lines 194-225). -/
inductive Checkpoint where
  | afterConnect
  | afterWrite
  deriving DecidableEq, Repr

/-- Program points of a thread inside the client code. The number is the source
line about to run: `cancel_` in `cancelrequest` (lines 126-138), `complete_` in
`onRequestComplete` (lines 77-100), `lambda_` in the connect lambda, where
178, 180, 185, 187 and 193 also stand for lines 196, 198, 203, 204 and 210 of
the write lambda. `locked` tells whether the lambda that called
`onRequestComplete` holds the session lock, which it releases when it returns. -/
inductive Pc where
  | cancel_128 (request_id : Nat)
  | cancel_130 (request_id : Nat)
  | cancel_133 (session : Nat)
  | cancel_135 (session : Nat)
  | cancel_136 (session : Nat)
  | cancel_137 (session : Nat)
  | cancel_138
  | lambda_178 (session : Nat) (cp : Checkpoint) (ec : ErrorCode)
  | lambda_180 (session : Nat) (ec : ErrorCode)
  | lambda_185 (session : Nat) (cp : Checkpoint)
  | lambda_187 (session : Nat) (cp : Checkpoint)
  | lambda_193 (session : Nat) (cp : Checkpoint)
  | lambda_return (session : Nat) (locked : Bool)
  | complete_81 (session : Nat) (locked : Bool)
  | complete_83 (session : Nat) (locked : Bool)
  | complete_85 (session : Nat) (locked : Bool)
  | complete_89 (session : Nat) (locked : Bool)
  | complete_91 (session : Nat) (locked : Bool)
  | finished
  deriving DecidableEq, Repr

/-- The client, the thread that owns `m_active_sessions_gaurd` if one does, the
pairs (session, thread) of the `m_cancel_gaurd` mutexes that are owned, and the
program point of every thread. -/
structure World where
  client : AsyncTCPClient
  registry_owner : Option Nat
  session_owners : List (Nat × Nat)
  threads : List Pc
  deriving DecidableEq, Repr

/-- Thread `t` moves to program point `pc`. -/
def World.goto (w : World) (t : Nat) (pc : Pc) : World :=
  { w with threads := w.threads.set t pc }

/-- Whether the next statement of thread `t` is the lock of a mutex that is
owned: the thread cannot run. -/
def World.blocked (w : World) (t : Nat) : Bool :=
  match w.threads[t]? with
  | some (Pc.cancel_128 _) => w.registry_owner.isSome
  | some (Pc.complete_83 _ _) => w.registry_owner.isSome
  | some (Pc.cancel_133 session) => (w.session_owners.lookup session).isSome
  | some (Pc.lambda_185 session _) => (w.session_owners.lookup session).isSome
  | _ => false

/-- Thread `t` runs the statement at its program point. A thread that is
blocked, has finished or does not exist leaves the world as it is. -/
def World.step (w : World) (t : Nat) : World :=
  if w.blocked t then w else
  match w.threads[t]? with
  | none => w
  | some Pc.finished => w
  -- cancelrequest
  | some (Pc.cancel_128 request_id) =>
    { (w.goto t (Pc.cancel_130 request_id)) with
      registry_owner := some t
      client := w.client.emit Event.lock_registry }
  | some (Pc.cancel_130 request_id) =>
    match mapFind w.client.m_active_sessions (toKey request_id) with
    | some session => w.goto t (Pc.cancel_133 session)
    | none => w.goto t Pc.cancel_138
  | some (Pc.cancel_133 session) =>
    { (w.goto t (Pc.cancel_135 session)) with
      session_owners := (session, t) :: w.session_owners
      client := w.client.emit (Event.lock_session session) }
  | some (Pc.cancel_135 session) =>
    { (w.goto t (Pc.cancel_136 session)) with
      client := w.client.modify session (fun s => { s with m_was_cacelled := true }) }
  | some (Pc.cancel_136 session) =>
    { (w.goto t (Pc.cancel_137 session)) with
      client := w.client.emit (Event.sock_cancel session) }
  | some (Pc.cancel_137 session) =>
    { (w.goto t Pc.cancel_138) with
      session_owners := w.session_owners.filter (fun p => p.1 != session)
      client := w.client.emit (Event.unlock_session session) }
  | some Pc.cancel_138 =>
    { (w.goto t Pc.finished) with
      registry_owner := none
      client := w.client.emit Event.unlock_registry }
  -- completion lambda of async_connect or async_write
  | some (Pc.lambda_178 session cp ec) =>
    if ec.value != 0 then w.goto t (Pc.lambda_180 session ec)
    else w.goto t (Pc.lambda_185 session cp)
  | some (Pc.lambda_180 session ec) =>
    { (w.goto t (Pc.complete_81 session false)) with
      client := w.client.modify session (fun s => { s with m_ec := ec }) }
  | some (Pc.lambda_185 session cp) =>
    { (w.goto t (Pc.lambda_187 session cp)) with
      session_owners := (session, t) :: w.session_owners
      client := w.client.emit (Event.lock_session session) }
  | some (Pc.lambda_187 session cp) =>
    match w.client.sessions[session]? with
    | none => w.goto t (Pc.lambda_return session true)
    | some s =>
      if s.m_was_cacelled then w.goto t (Pc.complete_81 session true)
      else w.goto t (Pc.lambda_193 session cp)
  | some (Pc.lambda_193 session Checkpoint.afterConnect) =>
    { (w.goto t (Pc.lambda_return session true)) with
      client := (w.client.modify session
        (fun s => { s with m_sock := { s.m_sock with outstanding := some AsyncOp.write } })).emit
        (Event.async_write session) }
  | some (Pc.lambda_193 session Checkpoint.afterWrite) =>
    { (w.goto t (Pc.lambda_return session true)) with
      client := (w.client.modify session
        (fun s => { s with m_sock := { s.m_sock with outstanding := some AsyncOp.read } })).emit
        (Event.async_read_until session) }
  | some (Pc.lambda_return session true) =>
    { (w.goto t Pc.finished) with
      session_owners := w.session_owners.filter (fun p => p.1 != session)
      client := w.client.emit (Event.unlock_session session) }
  | some (Pc.lambda_return _ false) => w.goto t Pc.finished
  -- onRequestComplete
  | some (Pc.complete_81 session locked) =>
    { (w.goto t (Pc.complete_83 session locked)) with
      client := w.client.emit (Event.sock_shutdown session) }
  | some (Pc.complete_83 session locked) =>
    { (w.goto t (Pc.complete_85 session locked)) with
      registry_owner := some t
      client := w.client.emit Event.lock_registry }
  | some (Pc.complete_85 session locked) =>
    match w.client.sessions[session]? with
    | none => w.goto t (Pc.complete_89 session locked)
    | some s =>
      match mapFind w.client.m_active_sessions (toKey s.m_id) with
      | some _ =>
        { (w.goto t (Pc.complete_89 session locked)) with
          client := { w.client with
            m_active_sessions := mapErase w.client.m_active_sessions (toKey s.m_id) } }
      | none => w.goto t (Pc.complete_89 session locked)
  | some (Pc.complete_89 session locked) =>
    { (w.goto t (Pc.complete_91 session locked)) with
      registry_owner := none
      client := w.client.emit Event.unlock_registry }
  | some (Pc.complete_91 session locked) =>
    match w.client.sessions[session]? with
    | none => w.goto t (Pc.lambda_return session locked)
    | some s =>
      let ec := if s.m_ec.value == 0 && s.m_was_cacelled then operation_aborted else s.m_ec
      { (w.goto t (Pc.lambda_return session locked)) with
        client := w.client.emit
          (Event.callback session s.m_callback s.m_id s.m_response ec
            w.client.m_active_sessions) }

/-- A schedule: the threads that run one statement each, in order. -/
def World.run (w : World) : List Nat → World
  | [] => w
  | t :: rest => (w.step t).run rest

/-- Request 1 has been cancelled while its connect was outstanding; the
connect has now completed with success and the reactor has handed the
completion to a worker, thread 0, which is about to run the connect lambda of
session 0, while the main thread, thread 1, is about to run `cancelrequest(1)`
a second time. No mutex is owned. -/
def overlappingCancel : World :=
  { client := oneCancelled.modify 0
      (fun s => { s with m_sock := { s.m_sock with outstanding := none } })
    registry_owner := none
    session_owners := []
    threads := [Pc.lambda_178 0 Checkpoint.afterConnect ErrorCode.success, Pc.cancel_128 1] }

/-- The world reached from `overlappingCancel` when the worker tests the error
code (line 178) and takes the session lock (line 185), the main thread takes
the registry lock (line 128) and finds session 0 (line 130), and the worker
tests the flag (line 187) and shuts the socket down in `onRequestComplete`
(line 81). -/
def deadlocked : World :=
  overlappingCancel.run [0, 0, 1, 1, 0, 0]

/-! ## Basic facts about the registry map -/

theorem mapFind_mapErase_self (m : List (Int × Nat)) (k : Int) :
    mapFind (mapErase m k) k = none := by
  induction m with
  | nil => rfl
  | cons p rest ih =>
    obtain ⟨j, v⟩ := p
    by_cases hj : j = k
    · simp [mapErase, hj, ih]
    · simp [mapErase, mapFind, hj, ih]

theorem mapFind_mapErase_ne (m : List (Int × Nat)) (k j : Int) (h : j ≠ k) :
    mapFind (mapErase m k) j = mapFind m j := by
  induction m with
  | nil => rfl
  | cons p rest ih =>
    obtain ⟨i, v⟩ := p
    by_cases hi : i = k
    · have hkj : ¬ k = j := fun e => h e.symm
      simp [mapErase, mapFind, hi, ih, hkj]
    · by_cases hij : i = j
      · subst hij
        simp [mapErase, mapFind, hi]
      · simp [mapErase, mapFind, hi, hij, ih]

theorem mapErase_of_mapFind_none (m : List (Int × Nat)) (k : Int) (h : mapFind m k = none) :
    mapErase m k = m := by
  induction m with
  | nil => rfl
  | cons p rest ih =>
    obtain ⟨j, v⟩ := p
    by_cases hj : j = k
    · simp [mapFind, hj] at h
    · simp [mapFind, hj] at h
      simp [mapErase, hj, ih h]

@[simp] theorem emit_sessions (c : AsyncTCPClient) (e : Event) :
    (c.emit e).sessions = c.sessions := rfl

@[simp] theorem emit_active (c : AsyncTCPClient) (e : Event) :
    (c.emit e).m_active_sessions = c.m_active_sessions := rfl

@[simp] theorem emit_trace (c : AsyncTCPClient) (e : Event) :
    (c.emit e).trace = c.trace ++ [e] := rfl

@[simp] theorem modify_sessions (c : AsyncTCPClient) (i : Nat) (f : Session → Session) :
    (c.modify i f).sessions = c.sessions.modify f i := rfl

@[simp] theorem modify_active (c : AsyncTCPClient) (i : Nat) (f : Session → Session) :
    (c.modify i f).m_active_sessions = c.m_active_sessions := rfl

@[simp] theorem modify_trace (c : AsyncTCPClient) (i : Nat) (f : Session → Session) :
    (c.modify i f).trace = c.trace := rfl

@[simp] theorem callbacks_append (t u : List Event) :
    callbacks (t ++ u) = callbacks t ++ callbacks u := by
  simp [callbacks]

@[simp] theorem requestCompletes_append (t u : List Event) :
    requestCompletes (t ++ u) = requestCompletes t ++ requestCompletes u := by
  simp [requestCompletes]

@[simp] theorem issues_append (t u : List Event) :
    issues (t ++ u) = issues t ++ issues u := by
  simp [issues]

/-- Closed form of `onRequestComplete` on a live session. -/
theorem onRequestComplete_eq (c : AsyncTCPClient) (session : Nat) (s : Session)
    (h : c.sessions[session]? = some s) :
    c.onRequestComplete session =
      { sessions := c.sessions
        m_active_sessions := mapErase c.m_active_sessions (toKey s.m_id)
        trace := c.trace ++
          [Event.sock_shutdown session, Event.lock_registry, Event.unlock_registry,
            Event.callback session s.m_callback s.m_id s.m_response s.classification
              (mapErase c.m_active_sessions (toKey s.m_id))] } := by
  unfold AsyncTCPClient.onRequestComplete
  simp only [h, emit_active, emit_sessions, emit_trace]
  cases hf : mapFind c.m_active_sessions (toKey s.m_id) with
  | none =>
    simp [AsyncTCPClient.emit, Session.classification, mapErase_of_mapFind_none _ _ hf]
  | some v =>
    simp [AsyncTCPClient.emit, Session.classification]

/-! ## Closed forms of the completion lambdas -/

/-- Reading a session back after a write through its pointer. -/
theorem modify_get (c : AsyncTCPClient) (session : Nat) (s : Session) (f : Session → Session)
    (h : c.sessions[session]? = some s) :
    (c.modify session f).sessions[session]? = some (f s) := by
  simp [h]

/-- A failed stage stores its code, and that code is the classification. -/
theorem classification_of_error (s : Session) (ec : ErrorCode) (hec : ec.value ≠ 0) :
    ({ s with m_ec := ec } : Session).classification = ec := by
  simp [Session.classification, hec]

/-- Connect lambda, branch of lines 178-183: the connect failed. -/
theorem onConnect_error (c : AsyncTCPClient) (session : Nat) (s : Session) (ec : ErrorCode)
    (h : c.sessions[session]? = some s) (hec : ec.value ≠ 0) :
    c.onConnect session ec =
      { sessions := c.sessions.modify (fun s => { s with m_ec := ec }) session
        m_active_sessions := mapErase c.m_active_sessions (toKey s.m_id)
        trace := c.trace ++
          [Event.sock_shutdown session, Event.lock_registry, Event.unlock_registry,
            Event.callback session s.m_callback s.m_id s.m_response ec
              (mapErase c.m_active_sessions (toKey s.m_id))] } := by
  unfold AsyncTCPClient.onConnect
  simp only [h]
  have hb : (ec.value != 0) = true := by simpa using hec
  simp only [hb, if_true]
  rw [onRequestComplete_eq _ session _ (modify_get c session s _ h)]
  simp [classification_of_error s ec hec]

/-- Connect lambda, branch of lines 187-191: the flag is set at the checkpoint. -/
theorem onConnect_cancelled (c : AsyncTCPClient) (session : Nat) (s : Session) (ec : ErrorCode)
    (h : c.sessions[session]? = some s) (hec : ec.value = 0) (hf : s.m_was_cacelled = true) :
    c.onConnect session ec =
      { sessions := c.sessions
        m_active_sessions := mapErase c.m_active_sessions (toKey s.m_id)
        trace := c.trace ++
          [Event.lock_session session,
            Event.sock_shutdown session, Event.lock_registry, Event.unlock_registry,
            Event.callback session s.m_callback s.m_id s.m_response s.classification
              (mapErase c.m_active_sessions (toKey s.m_id)),
            Event.unlock_session session] } := by
  unfold AsyncTCPClient.onConnect
  simp only [h]
  have hb : (ec.value != 0) = false := by simp [hec]
  simp only [hb, hf, Bool.false_eq_true, if_false, if_true]
  rw [onRequestComplete_eq (c.emit (Event.lock_session session)) session s h]
  simp [AsyncTCPClient.emit]

/-- Connect lambda, line 193: the flag is unset at the checkpoint. -/
theorem onConnect_proceed (c : AsyncTCPClient) (session : Nat) (s : Session) (ec : ErrorCode)
    (h : c.sessions[session]? = some s) (hec : ec.value = 0) (hf : s.m_was_cacelled = false) :
    c.onConnect session ec =
      { sessions := c.sessions.modify
          (fun s => { s with m_sock := { s.m_sock with outstanding := some AsyncOp.write } })
          session
        m_active_sessions := c.m_active_sessions
        trace := c.trace ++
          [Event.lock_session session, Event.async_write session,
            Event.unlock_session session] } := by
  unfold AsyncTCPClient.onConnect
  simp only [h]
  have hb : (ec.value != 0) = false := by simp [hec]
  simp [hb, hf, AsyncTCPClient.emit, AsyncTCPClient.modify]

/-- Write lambda, branch of lines 196-201: the write failed. -/
theorem onWrite_error (c : AsyncTCPClient) (session : Nat) (s : Session) (ec : ErrorCode)
    (h : c.sessions[session]? = some s) (hec : ec.value ≠ 0) :
    c.onWrite session ec =
      { sessions := c.sessions.modify (fun s => { s with m_ec := ec }) session
        m_active_sessions := mapErase c.m_active_sessions (toKey s.m_id)
        trace := c.trace ++
          [Event.sock_shutdown session, Event.lock_registry, Event.unlock_registry,
            Event.callback session s.m_callback s.m_id s.m_response ec
              (mapErase c.m_active_sessions (toKey s.m_id))] } := by
  unfold AsyncTCPClient.onWrite
  simp only [h]
  have hb : (ec.value != 0) = true := by simpa using hec
  simp only [hb, if_true]
  rw [onRequestComplete_eq _ session _ (modify_get c session s _ h)]
  simp [classification_of_error s ec hec]

/-- Write lambda, branch of lines 204-208: the flag is set at the checkpoint. -/
theorem onWrite_cancelled (c : AsyncTCPClient) (session : Nat) (s : Session) (ec : ErrorCode)
    (h : c.sessions[session]? = some s) (hec : ec.value = 0) (hf : s.m_was_cacelled = true) :
    c.onWrite session ec =
      { sessions := c.sessions
        m_active_sessions := mapErase c.m_active_sessions (toKey s.m_id)
        trace := c.trace ++
          [Event.lock_session session,
            Event.sock_shutdown session, Event.lock_registry, Event.unlock_registry,
            Event.callback session s.m_callback s.m_id s.m_response s.classification
              (mapErase c.m_active_sessions (toKey s.m_id)),
            Event.unlock_session session] } := by
  unfold AsyncTCPClient.onWrite
  simp only [h]
  have hb : (ec.value != 0) = false := by simp [hec]
  simp only [hb, hf, Bool.false_eq_true, if_false, if_true]
  rw [onRequestComplete_eq (c.emit (Event.lock_session session)) session s h]
  simp [AsyncTCPClient.emit]

/-- Write lambda, line 210: the flag is unset at the checkpoint. -/
theorem onWrite_proceed (c : AsyncTCPClient) (session : Nat) (s : Session) (ec : ErrorCode)
    (h : c.sessions[session]? = some s) (hec : ec.value = 0) (hf : s.m_was_cacelled = false) :
    c.onWrite session ec =
      { sessions := c.sessions.modify
          (fun s => { s with m_sock := { s.m_sock with outstanding := some AsyncOp.read } })
          session
        m_active_sessions := c.m_active_sessions
        trace := c.trace ++
          [Event.lock_session session, Event.async_read_until session,
            Event.unlock_session session] } := by
  unfold AsyncTCPClient.onWrite
  simp only [h]
  have hb : (ec.value != 0) = false := by simp [hec]
  simp [hb, hf, AsyncTCPClient.emit, AsyncTCPClient.modify]

/-- Read lambda, branch of lines 213-216: the read failed. -/
theorem onRead_error (c : AsyncTCPClient) (session : Nat) (s : Session) (ec : ErrorCode)
    (h : c.sessions[session]? = some s) (hec : ec.value ≠ 0) :
    c.onRead session ec =
      { sessions := c.sessions.modify (fun s => { s with m_ec := ec }) session
        m_active_sessions := mapErase c.m_active_sessions (toKey s.m_id)
        trace := c.trace ++
          [Event.sock_shutdown session, Event.lock_registry, Event.unlock_registry,
            Event.callback session s.m_callback s.m_id s.m_response ec
              (mapErase c.m_active_sessions (toKey s.m_id))] } := by
  unfold AsyncTCPClient.onRead
  have hb : (ec.value != 0) = true := by simpa using hec
  simp only [hb, if_true]
  rw [onRequestComplete_eq _ session _ (modify_get c session s _ h)]
  simp [classification_of_error s ec hec]

/-- Read lambda, branch of lines 217-221: the read succeeded. -/
theorem onRead_success (c : AsyncTCPClient) (session : Nat) (s : Session) (ec : ErrorCode)
    (h : c.sessions[session]? = some s) (hec : ec.value = 0) :
    c.onRead session ec =
      { sessions := c.sessions.modify
          (fun s => { s with
            m_response := getlineText s.m_response_buf
            m_response_buf := getlineRest s.m_response_buf }) session
        m_active_sessions := mapErase c.m_active_sessions (toKey s.m_id)
        trace := c.trace ++
          [Event.sock_shutdown session, Event.lock_registry, Event.unlock_registry,
            Event.callback session s.m_callback s.m_id (getlineText s.m_response_buf)
              (if s.m_ec.value == 0 && s.m_was_cacelled then operation_aborted else s.m_ec)
              (mapErase c.m_active_sessions (toKey s.m_id))] } := by
  unfold AsyncTCPClient.onRead
  have hb : (ec.value != 0) = false := by simp [hec]
  simp only [hb, Bool.false_eq_true, if_false]
  rw [onRequestComplete_eq _ session _ (modify_get c session s _ h)]
  simp [Session.classification]

/-! ## Closed forms of `cancelrequest` and of a delivery -/

/-- Method `cancelrequest` on an id that is a key of the registry. -/
theorem cancelrequest_present (c : AsyncTCPClient) (id session : Nat)
    (h : mapFind c.m_active_sessions (toKey id) = some session) :
    c.cancelrequest id =
      { sessions := c.sessions.modify (fun s => { s with m_was_cacelled := true }) session
        m_active_sessions := c.m_active_sessions
        trace := c.trace ++
          [Event.lock_registry, Event.lock_session session, Event.sock_cancel session,
            Event.unlock_session session, Event.unlock_registry] } := by
  simp [AsyncTCPClient.cancelrequest, h, AsyncTCPClient.emit, AsyncTCPClient.modify]

/-- Method `cancelrequest` on an id that is not a key of the registry. -/
theorem cancelrequest_absent (c : AsyncTCPClient) (id : Nat)
    (h : mapFind c.m_active_sessions (toKey id) = none) :
    c.cancelrequest id =
      { sessions := c.sessions
        m_active_sessions := c.m_active_sessions
        trace := c.trace ++ [Event.lock_registry, Event.unlock_registry] } := by
  simp [AsyncTCPClient.cancelrequest, h, AsyncTCPClient.emit]

/-- Delivery to a session whose connect is outstanding runs the connect lambda. -/
theorem complete_connect (c : AsyncTCPClient) (session : Nat) (s : Session) (ec : ErrorCode)
    (data : List Char) (h : c.sessions[session]? = some s)
    (hout : s.m_sock.outstanding = some AsyncOp.connect) :
    c.complete session ec data =
      (c.modify session
        (fun s => { s with m_sock := { s.m_sock with outstanding := none } })).onConnect
        session ec := by
  unfold AsyncTCPClient.complete
  simp only [h, hout]

/-- Delivery to a session whose write is outstanding runs the write lambda. -/
theorem complete_write (c : AsyncTCPClient) (session : Nat) (s : Session) (ec : ErrorCode)
    (data : List Char) (h : c.sessions[session]? = some s)
    (hout : s.m_sock.outstanding = some AsyncOp.write) :
    c.complete session ec data =
      (c.modify session
        (fun s => { s with m_sock := { s.m_sock with outstanding := none } })).onWrite
        session ec := by
  unfold AsyncTCPClient.complete
  simp only [h, hout]

/-- Delivery to a session whose read is outstanding puts the data in the
response buffer and runs the read lambda. -/
theorem complete_read (c : AsyncTCPClient) (session : Nat) (s : Session) (ec : ErrorCode)
    (data : List Char) (h : c.sessions[session]? = some s)
    (hout : s.m_sock.outstanding = some AsyncOp.read) :
    c.complete session ec data =
      (c.modify session
        (fun s => { s with
          m_sock := { s.m_sock with outstanding := none }
          m_response_buf := s.m_response_buf ++ data })).onRead session ec := by
  unfold AsyncTCPClient.complete
  simp only [h, hout]

/-! ## Facts about `std::getline` -/

/-- A buffer holding a newline splits into the line, the newline and the rest. -/
theorem getline_split (buf : List Char) (h : newline ∈ buf) :
    buf = getlineText buf ++ newline :: getlineRest buf := by
  induction buf with
  | nil => simp at h
  | cons ch rest ih =>
    by_cases hch : ch = newline
    · simp [getlineText, getlineRest, hch]
    · have hrest : newline ∈ rest := by
        rcases List.mem_cons.mp h with h1 | h1
        · exact absurd h1.symm hch
        · exact h1
      simp only [getlineText, getlineRest, hch, if_false, List.cons_append]
      exact congrArg (List.cons ch) (ih hrest)

/-- The line taken by `std::getline` holds no newline. -/
theorem newline_not_mem_getlineText (buf : List Char) : newline ∉ getlineText buf := by
  induction buf with
  | nil => simp [getlineText]
  | cons ch rest ih =>
    by_cases hch : ch = newline
    · simp [getlineText, hch]
    · simp only [getlineText, hch, if_false, List.mem_cons, not_or]
      exact ⟨fun e => hch e.symm, ih⟩

/-- The line taken by `std::getline` is the longest newline-free start of the buffer. -/
theorem getlineText_eq_takeWhile (buf : List Char) :
    getlineText buf = buf.takeWhile (fun ch => ch != newline) := by
  induction buf with
  | nil => rfl
  | cons ch rest ih =>
    by_cases hch : ch = newline
    · simp [getlineText, hch]
    · have hb : (ch != newline) = true := by simpa using hch
      rw [List.takeWhile_cons, hb]
      simp [getlineText, hch, ih]

/-! ## The thread loop of the server -/

/-- Closed form of `emulateLongComputationOp` when neither library call throws. -/
theorem emulateLongComputationOp_eq (c : AsyncTCPClient) (ip : String) (port cb id : Nat)
    (from_string_ec open_ec : ErrorCode)
    (hparse : from_string_ec.value = 0) (hopen : open_ec.value = 0) :
    c.emulateLongComputationOp ip port cb id from_string_ec open_ec = Except.ok
      { sessions := c.sessions ++
          [{ Session.new ip port "Hello Server\n".toList id cb with
              m_sock := ⟨true, some AsyncOp.connect⟩ }]
        m_active_sessions := mapAssign c.m_active_sessions (toKey id) c.sessions.length
        trace := c.trace ++
          [Event.sock_open c.sessions.length, Event.lock_registry, Event.unlock_registry,
            Event.async_connect c.sessions.length] } := by
  have hm : ∀ (x : Session) (f : Session → Session),
      List.modify f c.sessions.length (c.sessions ++ [x]) = c.sessions ++ [f x] := by
    intro x f
    induction c.sessions with
    | nil => rfl
    | cons a l ih => simp [List.modify_succ_cons, ih]
  simp [AsyncTCPClient.emulateLongComputationOp, AsyncTCPClient.emit, AsyncTCPClient.modify,
    hm, Session.new, hparse, hopen]

/-- Closed form of a submission that returns. -/
theorem step_submit_eq (c : AsyncTCPClient) (ip : String) (port cb id : Nat) :
    c.step (Action.submit ip port cb id) =
      { sessions := c.sessions ++
          [{ Session.new ip port "Hello Server\n".toList id cb with
              m_sock := ⟨true, some AsyncOp.connect⟩ }]
        m_active_sessions := mapAssign c.m_active_sessions (toKey id) c.sessions.length
        trace := c.trace ++
          [Event.sock_open c.sessions.length, Event.lock_registry, Event.unlock_registry,
            Event.async_connect c.sessions.length] } := by
  simp only [AsyncTCPClient.step]
  rw [emulateLongComputationOp_eq c ip port cb id ErrorCode.success ErrorCode.success rfl rfl]

/-! ## Sessions with an operation outstanding are untouched by failures -/

/-- Reading any index after a write through one pointer. -/
theorem modify_cases (l : List Session) (f : Session → Session) (i j : Nat) (t : Session)
    (h : (l.modify f j)[i]? = some t) :
    (i ≠ j ∧ l[i]? = some t) ∨ (i = j ∧ ∃ s, l[j]? = some s ∧ t = f s) := by
  by_cases hij : i = j
  · subst hij
    rw [List.getElem?_modify_eq] at h
    cases hl : l[i]? with
    | none => simp [hl] at h
    | some s =>
      simp [hl] at h
      exact Or.inr ⟨rfl, s, rfl, h.symm⟩
  · rw [List.getElem?_modify_ne _ _ (fun e => hij e.symm)] at h
    exact Or.inl ⟨hij, h⟩

/-- Two writes through the same pointer are one write. -/
theorem modify_modify_same (f g : Session → Session) :
    ∀ (j : Nat) (l : List Session), List.modify f j (List.modify g j l)
      = List.modify (fun s => f (g s)) j l := by
  intro j
  induction j with
  | zero =>
    intro l
    cases l <;> rfl
  | succ j ih =>
    intro l
    cases l with
    | nil => rfl
    | cons a l => simp [List.modify_succ_cons, ih]

/-- A delivery never leaves an operation outstanding on a session that had
none, and a session that still has one keeps its stored error and response. -/
theorem complete_outstanding (c : AsyncTCPClient) (j : Nat) (ec : ErrorCode) (data : List Char)
    (i : Nat) (t : Session) (ht : (c.complete j ec data).sessions[i]? = some t)
    (hout : t.m_sock.outstanding ≠ none) :
    ∃ s, c.sessions[i]? = some s ∧ s.m_sock.outstanding ≠ none ∧
      t.m_ec = s.m_ec ∧ t.m_response = s.m_response := by
  cases hj : c.sessions[j]? with
  | none =>
    have : c.complete j ec data = c := by
      unfold AsyncTCPClient.complete
      simp only [hj]
    rw [this] at ht
    exact ⟨t, ht, hout, rfl, rfl⟩
  | some s =>
    have h2 := modify_get c j s
      (fun s => { s with m_sock := { s.m_sock with outstanding := none } }) hj
    have h3 := modify_get c j s
      (fun s => { s with
        m_sock := { s.m_sock with outstanding := none }
        m_response_buf := s.m_response_buf ++ data }) hj
    have other : ∀ f : Session → Session, (c.sessions.modify f j)[i]? = some t →
        ((f s).m_sock.outstanding ≠ none →
          s.m_sock.outstanding ≠ none ∧ (f s).m_ec = s.m_ec ∧ (f s).m_response = s.m_response) →
        ∃ s, c.sessions[i]? = some s ∧ s.m_sock.outstanding ≠ none ∧
          t.m_ec = s.m_ec ∧ t.m_response = s.m_response := by
      intro f hf hkeep
      rcases modify_cases _ f i j t hf with ⟨-, hi⟩ | ⟨hij, s0, hs0, hts⟩
      · exact ⟨t, hi, hout, rfl, rfl⟩
      · subst hij
        have hs : s0 = s := by
          rw [hj] at hs0
          exact (Option.some.inj hs0).symm
        subst hs
        subst hts
        exact ⟨s0, hj, hkeep hout⟩
    rcases ho : s.m_sock.outstanding with _ | op
    · have : c.complete j ec data = c := by
        unfold AsyncTCPClient.complete
        simp only [hj, ho]
      rw [this] at ht
      exact ⟨t, ht, hout, rfl, rfl⟩
    · have hso : s.m_sock.outstanding ≠ none := by simp [ho]
      cases op
      · rw [complete_connect c j s ec data hj ho] at ht
        by_cases hec : ec.value = 0
        · cases hf : s.m_was_cacelled
          · rw [onConnect_proceed _ j _ ec h2 hec hf] at ht
            simp only [modify_sessions, modify_modify_same] at ht
            exact other _ ht (fun _ => ⟨hso, rfl, rfl⟩)
          · rw [onConnect_cancelled _ j _ ec h2 hec hf] at ht
            simp only [modify_sessions] at ht
            exact other _ ht (fun hn => absurd rfl hn)
        · rw [onConnect_error _ j _ ec h2 hec] at ht
          simp only [modify_sessions, modify_modify_same] at ht
          exact other _ ht (fun hn => absurd rfl hn)
      · rw [complete_write c j s ec data hj ho] at ht
        by_cases hec : ec.value = 0
        · cases hf : s.m_was_cacelled
          · rw [onWrite_proceed _ j _ ec h2 hec hf] at ht
            simp only [modify_sessions, modify_modify_same] at ht
            exact other _ ht (fun _ => ⟨hso, rfl, rfl⟩)
          · rw [onWrite_cancelled _ j _ ec h2 hec hf] at ht
            simp only [modify_sessions] at ht
            exact other _ ht (fun hn => absurd rfl hn)
        · rw [onWrite_error _ j _ ec h2 hec] at ht
          simp only [modify_sessions, modify_modify_same] at ht
          exact other _ ht (fun hn => absurd rfl hn)
      · rw [complete_read c j s ec data hj ho] at ht
        by_cases hec : ec.value = 0
        · rw [onRead_success _ j _ ec h3 hec] at ht
          simp only [modify_sessions, modify_modify_same] at ht
          exact other _ ht (fun hn => absurd rfl hn)
        · rw [onRead_error _ j _ ec h3 hec] at ht
          simp only [modify_sessions, modify_modify_same] at ht
          exact other _ ht (fun hn => absurd rfl hn)

/-- Method `cancelrequest` changes nothing of a session but its flag. -/
theorem cancelrequest_outstanding (c : AsyncTCPClient) (id i : Nat) (t : Session)
    (ht : (c.cancelrequest id).sessions[i]? = some t) :
    ∃ s, c.sessions[i]? = some s ∧ t.m_sock = s.m_sock ∧
      t.m_ec = s.m_ec ∧ t.m_response = s.m_response := by
  cases hf : mapFind c.m_active_sessions (toKey id) with
  | none =>
    rw [cancelrequest_absent c id hf] at ht
    exact ⟨t, ht, rfl, rfl, rfl⟩
  | some session =>
    rw [cancelrequest_present c id session hf] at ht
    rcases modify_cases _ _ i session t ht with ⟨-, hi⟩ | ⟨hij, s0, hs0, hts⟩
    · exact ⟨t, hi, rfl, rfl, rfl⟩
    · subst hts
      subst hij
      exact ⟨s0, hs0, rfl, rfl, rfl⟩

/-- A submission keeps the stored sessions and adds one with no error and no
response. -/
theorem emulateLongComputationOp_outstanding (c : AsyncTCPClient) (ip : String)
    (port cb id i : Nat) (t : Session)
    (ht : (c.step (Action.submit ip port cb id)).sessions[i]? = some t) :
    c.sessions[i]? = some t ∨ (t.m_ec = ErrorCode.success ∧ t.m_response = []) := by
  rw [step_submit_eq] at ht
  simp only at ht
  by_cases hi : i < c.sessions.length
  · rw [List.getElem?_append_left hi] at ht
    exact Or.inl ht
  · rw [List.getElem?_append_right (by omega)] at ht
    right
    cases hk : i - c.sessions.length with
    | zero =>
      rw [hk] at ht
      simp at ht
      subst ht
      exact ⟨rfl, rfl⟩
    | succ k =>
      rw [hk] at ht
      simp at ht

/-- In every state reached from the unused client, a session with an operation
outstanding has no error stored and an empty response. -/
theorem run_outstanding_fresh (history : List Action) :
    ∀ c : AsyncTCPClient,
      (∀ (i : Nat) (s : Session), c.sessions[i]? = some s → s.m_sock.outstanding ≠ none →
        s.m_ec = ErrorCode.success ∧ s.m_response = []) →
      ∀ (i : Nat) (s : Session), (c.run history).sessions[i]? = some s →
        s.m_sock.outstanding ≠ none →
        s.m_ec = ErrorCode.success ∧ s.m_response = [] := by
  induction history with
  | nil =>
    intro c hc
    exact hc
  | cons a rest ih =>
    intro c hc
    apply ih (c.step a)
    intro i t ht hout
    cases a with
    | submit ip port cb id =>
      rcases emulateLongComputationOp_outstanding c ip port cb id i t ht with h0 | h1
      · exact hc i t h0 hout
      · exact h1
    | cancel id =>
      obtain ⟨s, hs, hsock, hec, hresp⟩ := cancelrequest_outstanding c id i t ht
      rw [hec, hresp]
      exact hc i s hs (by rw [← hsock]; exact hout)
    | deliver j ec data =>
      obtain ⟨s, hs, hso, hec, hresp⟩ := complete_outstanding c j ec data i t ht hout
      rw [hec, hresp]
      exact hc i s hs hso

/-- The same, from the unused client. -/
theorem reachable_outstanding_fresh (history : List Action) (i : Nat) (s : Session)
    (h : (AsyncTCPClient.empty.run history).sessions[i]? = some s)
    (hout : s.m_sock.outstanding ≠ none) :
    s.m_ec = ErrorCode.success ∧ s.m_response = [] := by
  refine run_outstanding_fresh history AsyncTCPClient.empty ?_ i s h hout
  intro i s hs
  simp [AsyncTCPClient.empty] at hs

/-! ## The checkpoints on a session with no stored error -/

/-- Cancel then connect completion, for a session with no error stored and no
response yet. -/
theorem cancel_then_connect_fresh (c : AsyncTCPClient) (id session : Nat) (s : Session)
    (ec : ErrorCode) (data : List Char)
    (hreg : mapFind c.m_active_sessions (toKey id) = some session)
    (h : c.sessions[session]? = some s)
    (hout : s.m_sock.outstanding = some AsyncOp.connect)
    (hec : s.m_ec.value = 0) (hresp : s.m_response = []) :
    (∃ active, callbacks ((c.cancelrequest id).complete session ec data).trace =
      callbacks c.trace ++ [Event.callback session s.m_callback s.m_id []
        (if ec.value = 0 then operation_aborted else ec) active]) ∧
    issues ((c.cancelrequest id).complete session ec data).trace = issues c.trace ∧
    ((c.cancelrequest id).complete session ec data).outstanding session = none ∧
    (ec = operation_aborted → (if ec.value = 0 then operation_aborted else ec)
      = operation_aborted) := by
  have h1 : (c.cancelrequest id).sessions[session]? = some { s with m_was_cacelled := true } := by
    rw [cancelrequest_present c id session hreg]
    simp [h]
  have ht : (c.cancelrequest id).trace = c.trace ++
      [Event.lock_registry, Event.lock_session session, Event.sock_cancel session,
        Event.unlock_session session, Event.unlock_registry] := by
    rw [cancelrequest_present c id session hreg]
  have ha : (c.cancelrequest id).m_active_sessions = c.m_active_sessions := by
    rw [cancelrequest_present c id session hreg]
  rw [complete_connect _ session _ ec data h1 hout]
  have h2 := modify_get (c.cancelrequest id) session _
    (fun s => { s with m_sock := { s.m_sock with outstanding := none } }) h1
  by_cases hv : ec.value = 0
  · rw [onConnect_cancelled _ session _ ec h2 hv rfl]
    refine ⟨⟨mapErase c.m_active_sessions (toKey s.m_id), ?_⟩, ?_, ?_, ?_⟩
    · simp [ht, ha, callbacks, Event.isCallback, Session.classification, hec, hv, hresp]
    · simp [ht, issues, Event.isIssue]
    · simp [AsyncTCPClient.outstanding, h1]
    · intro he
      subst he
      rfl
  · rw [onConnect_error _ session _ ec h2 hv]
    refine ⟨⟨mapErase c.m_active_sessions (toKey s.m_id), ?_⟩, ?_, ?_, ?_⟩
    · simp [ht, ha, callbacks, Event.isCallback, hv, hresp]
    · simp [ht, issues, Event.isIssue]
    · simp [AsyncTCPClient.outstanding, h1]
    · intro he
      subst he
      rfl

/-- The two checkpoints, for a session with no error stored. -/
theorem checkpoint_of_no_stored_error (c : AsyncTCPClient) (session : Nat) (s : Session)
    (ec : ErrorCode) (data : List Char)
    (h : c.sessions[session]? = some s) (hec : ec.value = 0) (hstored : s.m_ec.value = 0) :
    (s.m_sock.outstanding = some AsyncOp.connect → s.m_was_cacelled = true →
      issues (c.complete session ec data).trace = issues c.trace ∧
      (c.complete session ec data).outstanding session = none ∧
      callbacks (c.complete session ec data).trace = callbacks c.trace ++
        [Event.callback session s.m_callback s.m_id s.m_response operation_aborted
          (mapErase c.m_active_sessions (toKey s.m_id))]) ∧
    (s.m_sock.outstanding = some AsyncOp.write → s.m_was_cacelled = true →
      issues (c.complete session ec data).trace = issues c.trace ∧
      (c.complete session ec data).outstanding session = none ∧
      callbacks (c.complete session ec data).trace = callbacks c.trace ++
        [Event.callback session s.m_callback s.m_id s.m_response operation_aborted
          (mapErase c.m_active_sessions (toKey s.m_id))]) ∧
    (s.m_sock.outstanding = some AsyncOp.connect → s.m_was_cacelled = false →
      issues (c.complete session ec data).trace = issues c.trace ++
        [Event.async_write session] ∧
      (c.complete session ec data).outstanding session = some AsyncOp.write ∧
      callbacks (c.complete session ec data).trace = callbacks c.trace) ∧
    (s.m_sock.outstanding = some AsyncOp.write → s.m_was_cacelled = false →
      issues (c.complete session ec data).trace = issues c.trace ++
        [Event.async_read_until session] ∧
      (c.complete session ec data).outstanding session = some AsyncOp.read ∧
      callbacks (c.complete session ec data).trace = callbacks c.trace) := by
  have h2 := modify_get c session s
    (fun s => { s with m_sock := { s.m_sock with outstanding := none } }) h
  refine ⟨?_, ?_, ?_, ?_⟩
  · intro hout hf
    rw [complete_connect c session s ec data h hout, onConnect_cancelled _ session _ ec h2 hec hf]
    refine ⟨?_, ?_, ?_⟩
    · simp [issues, Event.isIssue]
    · simp [AsyncTCPClient.outstanding, h]
    · simp [callbacks, Event.isCallback, Session.classification, hstored, hf]
  · intro hout hf
    rw [complete_write c session s ec data h hout, onWrite_cancelled _ session _ ec h2 hec hf]
    refine ⟨?_, ?_, ?_⟩
    · simp [issues, Event.isIssue]
    · simp [AsyncTCPClient.outstanding, h]
    · simp [callbacks, Event.isCallback, Session.classification, hstored, hf]
  · intro hout hf
    rw [complete_connect c session s ec data h hout, onConnect_proceed _ session _ ec h2 hec hf]
    refine ⟨?_, ?_, ?_⟩
    · simp [issues, Event.isIssue]
    · simp [AsyncTCPClient.outstanding, h]
    · simp [callbacks, Event.isCallback]
  · intro hout hf
    rw [complete_write c session s ec data h hout, onWrite_proceed _ session _ ec h2 hec hf]
    refine ⟨?_, ?_, ?_⟩
    · simp [issues, Event.isIssue]
    · simp [AsyncTCPClient.outstanding, h]
    · simp [callbacks, Event.isCallback]

/-! ## A stage that fails -/

/-- Delivery of a failure to a stored session with an operation outstanding:
`onRequestComplete` runs at once, the callback receives the reported code and
the response stored so far, and nothing stays outstanding. -/
theorem complete_failure (c : AsyncTCPClient) (session : Nat) (s : Session) (e : ErrorCode)
    (data : List Char) (h : c.sessions[session]? = some s)
    (hout : s.m_sock.outstanding ≠ none) (he : e.value ≠ 0) :
    (c.complete session e data).trace = c.trace ++
      [Event.sock_shutdown session, Event.lock_registry, Event.unlock_registry,
        Event.callback session s.m_callback s.m_id s.m_response e
          (mapErase c.m_active_sessions (toKey s.m_id))] ∧
    (c.complete session e data).outstanding session = none := by
  have h2 := modify_get c session s
    (fun s => { s with m_sock := { s.m_sock with outstanding := none } }) h
  have h3 := modify_get c session s
    (fun s => { s with
      m_sock := { s.m_sock with outstanding := none }
      m_response_buf := s.m_response_buf ++ data }) h
  rcases ho : s.m_sock.outstanding with _ | op
  · exact absurd ho hout
  · cases op
    · rw [complete_connect c session s e data h ho, onConnect_error _ session _ e h2 he]
      exact ⟨rfl, by simp [AsyncTCPClient.outstanding, h]⟩
    · rw [complete_write c session s e data h ho, onWrite_error _ session _ e h2 he]
      exact ⟨rfl, by simp [AsyncTCPClient.outstanding, h]⟩
    · rw [complete_read c session s e data h ho, onRead_error _ session _ e h3 he]
      exact ⟨rfl, by simp [AsyncTCPClient.outstanding, h]⟩

/-! ## The acceptor after `stop` -/

/-- Method `onAccept` with the stop flag set issues no accept and keeps the flag. -/
theorem onAccept_stopped (a : Acceptor) (ec : ErrorCode) (sock : Nat)
    (hs : a.m_isStopped = true) :
    (a.onAccept ec sock).m_isStopped = true ∧
    acceptsIssued (a.onAccept ec sock).log = acceptsIssued a.log ∧
    closes (a.onAccept ec sock).log = closes a.log ++ [AcceptorEvent.close] ∧
    (a.onAccept ec sock).is_open = false ∧
    (a.onAccept ec sock).outstanding = a.outstanding := by
  by_cases hec : ec.value = 0 <;>
    simp [Acceptor.onAccept, hec, hs, acceptsIssued, closes, AcceptorEvent.isAccept,
      AcceptorEvent.isClose]

/-- Method `onAccept` with the stop flag unset issues exactly one accept. -/
theorem onAccept_running (a : Acceptor) (ec : ErrorCode) (sock : Nat)
    (hs : a.m_isStopped = false) :
    acceptsIssued (a.onAccept ec sock).log
      = acceptsIssued a.log ++ [AcceptorEvent.async_accept a.next_sock] ∧
    closes (a.onAccept ec sock).log = closes a.log ∧
    (a.onAccept ec sock).is_open = a.is_open ∧
    (a.onAccept ec sock).outstanding = some a.next_sock := by
  by_cases hec : ec.value = 0 <;>
    simp [Acceptor.onAccept, Acceptor.InitAccept, hec, hs, acceptsIssued, closes,
      AcceptorEvent.isAccept, AcceptorEvent.isClose]

/-- Without a move of another thread in between, the delivery of an accept
completion and the three program points of `onAccept` amount to `complete`. -/
theorem onAccept_in_three_moves (a : Acceptor) (ec : ErrorCode) (sock : Nat)
    (ho : a.outstanding = some sock) :
    (AcceptorRun.mk a none).run
      [AcceptorMove.deliver ec, AcceptorMove.advance, AcceptorMove.advance, AcceptorMove.advance]
      = AcceptorRun.mk (a.complete ec) none := by
  by_cases hec : ec.value = 0 <;> cases hs : a.m_isStopped <;>
    simp [AcceptorRun.run, AcceptorRun.move, Acceptor.complete, Acceptor.onAccept,
      Acceptor.InitAccept, ho, hec, hs]

/-- Once the stop flag is set it stays set, and moves issue an accept only if
the worker had already chosen the branch of line 131: then at most the one
accept of that line. -/
theorem run_after_stop (moves : List AcceptorMove) :
    ∀ r : AcceptorRun, r.acceptor.m_isStopped = true →
      (r.run moves).acceptor.m_isStopped = true ∧
      (r.pc ≠ some OnAcceptPc.line_131 →
        acceptsIssued (r.run moves).acceptor.log = acceptsIssued r.acceptor.log) ∧
      (r.pc = some OnAcceptPc.line_131 →
        acceptsIssued (r.run moves).acceptor.log = acceptsIssued r.acceptor.log ∨
        acceptsIssued (r.run moves).acceptor.log = acceptsIssued r.acceptor.log ++
          [AcceptorEvent.async_accept r.acceptor.next_sock]) := by
  induction moves with
  | nil =>
    intro r hs
    exact ⟨hs, fun _ => rfl, fun _ => Or.inl rfl⟩
  | cons x rest ih =>
    intro r hs
    obtain ⟨a, pc⟩ := r
    simp only at hs
    cases x with
    | stop =>
      exact ih ⟨a.stop, pc⟩ rfl
    | deliver ec =>
      cases pc with
      | some p => exact ih ⟨a, some p⟩ hs
      | none =>
        cases ho : a.outstanding with
        | none =>
          have hm : (AcceptorRun.mk a none).move (AcceptorMove.deliver ec)
              = AcceptorRun.mk a none := by
            simp [AcceptorRun.move, ho]
          simp only [AcceptorRun.run, hm]
          exact ih ⟨a, none⟩ hs
        | some sock =>
          have hm : (AcceptorRun.mk a none).move (AcceptorMove.deliver ec)
              = AcceptorRun.mk { a with outstanding := none }
                  (some (OnAcceptPc.line_118 ec sock)) := by
            simp [AcceptorRun.move, ho]
          simp only [AcceptorRun.run, hm]
          obtain ⟨h1, h2, -⟩ := ih ⟨{ a with outstanding := none },
            some (OnAcceptPc.line_118 ec sock)⟩ hs
          exact ⟨h1, fun _ => h2 (by simp), fun h => absurd h (by simp)⟩
    | advance =>
      cases pc with
      | none => exact ih ⟨a, none⟩ hs
      | some p =>
        cases p with
        | line_118 ec sock =>
          by_cases hec : ec.value = 0
          · have hm : (AcceptorRun.mk a (some (OnAcceptPc.line_118 ec sock))).move
                AcceptorMove.advance = AcceptorRun.mk
                  { a with services := a.services ++ [(Service.new sock).startHandling] }
                  (some OnAcceptPc.line_129) := by
              simp [AcceptorRun.move, hec]
            simp only [AcceptorRun.run, hm]
            obtain ⟨h1, h2, -⟩ := ih ⟨{ a with
              services := a.services ++ [(Service.new sock).startHandling] },
              some OnAcceptPc.line_129⟩ hs
            exact ⟨h1, fun _ => h2 (by simp), fun h => absurd h (by simp)⟩
          · have hm : (AcceptorRun.mk a (some (OnAcceptPc.line_118 ec sock))).move
                AcceptorMove.advance = AcceptorRun.mk
                  { a with log := a.log ++ [AcceptorEvent.cout_error ec.value] }
                  (some OnAcceptPc.line_129) := by
              simp [AcceptorRun.move, hec]
            simp only [AcceptorRun.run, hm]
            obtain ⟨h1, h2, -⟩ := ih ⟨{ a with
              log := a.log ++ [AcceptorEvent.cout_error ec.value] },
              some OnAcceptPc.line_129⟩ hs
            refine ⟨h1, fun _ => ?_, fun h => absurd h (by simp)⟩
            rw [h2 (by simp)]
            simp [acceptsIssued, AcceptorEvent.isAccept]
        | line_129 =>
          have hm : (AcceptorRun.mk a (some OnAcceptPc.line_129)).move AcceptorMove.advance
              = AcceptorRun.mk a (some OnAcceptPc.line_135) := by
            simp [AcceptorRun.move, hs]
          simp only [AcceptorRun.run, hm]
          obtain ⟨h1, h2, -⟩ := ih ⟨a, some OnAcceptPc.line_135⟩ hs
          exact ⟨h1, fun _ => h2 (by simp), fun h => absurd h (by simp)⟩
        | line_131 =>
          have hm : (AcceptorRun.mk a (some OnAcceptPc.line_131)).move AcceptorMove.advance
              = AcceptorRun.mk a.InitAccept none := rfl
          simp only [AcceptorRun.run, hm]
          obtain ⟨h1, h2, -⟩ := ih ⟨a.InitAccept, none⟩ hs
          refine ⟨h1, fun h => absurd rfl h, fun _ => Or.inr ?_⟩
          rw [h2 (by simp)]
          simp [Acceptor.InitAccept, acceptsIssued, AcceptorEvent.isAccept]
        | line_135 =>
          have hm : (AcceptorRun.mk a (some OnAcceptPc.line_135)).move AcceptorMove.advance
              = AcceptorRun.mk { a with is_open := false, log := a.log ++ [AcceptorEvent.close] }
                  none := rfl
          simp only [AcceptorRun.run, hm]
          obtain ⟨h1, h2, -⟩ := ih ⟨{ a with
            is_open := false, log := a.log ++ [AcceptorEvent.close] }, none⟩ hs
          refine ⟨h1, fun _ => ?_, fun h => absurd h (by simp)⟩
          rw [h2 (by simp)]
          simp [acceptsIssued, AcceptorEvent.isAccept]

/-! ## A thread that runs alone does what the function does -/

/-- Method `cancelrequest` run statement by statement with no other thread. -/
theorem solo_cancelrequest (c : AsyncTCPClient) (id : Nat) :
    ((World.mk c none [] [Pc.cancel_128 id]).run [0, 0, 0, 0, 0, 0, 0]).client
      = c.cancelrequest id := by
  cases hf : mapFind c.m_active_sessions (toKey id) with
  | none =>
    rw [cancelrequest_absent c id hf]
    simp [World.run, World.step, World.blocked, World.goto, hf, AsyncTCPClient.emit]
  | some session =>
    rw [cancelrequest_present c id session hf]
    simp [World.run, World.step, World.blocked, World.goto, hf, AsyncTCPClient.emit,
      AsyncTCPClient.modify, List.lookup]

/-- The connect lambda run statement by statement with no other thread. -/
theorem solo_connect_lambda (c : AsyncTCPClient) (session : Nat) (s : Session) (ec : ErrorCode)
    (h : c.sessions[session]? = some s) :
    ((World.mk c none [] [Pc.lambda_178 session Checkpoint.afterConnect ec]).run
      [0, 0, 0, 0, 0, 0, 0, 0, 0]).client = c.onConnect session ec := by
  by_cases hec : ec.value = 0
  · cases hf : s.m_was_cacelled
    · rw [onConnect_proceed c session s ec h hec hf]
      simp [World.run, World.step, World.blocked, World.goto, AsyncTCPClient.emit,
        AsyncTCPClient.modify, List.lookup, h, hec, hf]
    · rw [onConnect_cancelled c session s ec h hec hf]
      cases hm : mapFind c.m_active_sessions (toKey s.m_id) <;>
      simp [World.run, World.step, World.blocked, World.goto, AsyncTCPClient.emit,
        AsyncTCPClient.modify, List.lookup, h, hec, hf, hm, Session.classification,
        mapErase_of_mapFind_none]
  · rw [onConnect_error c session s ec h hec]
    cases hm : mapFind c.m_active_sessions (toKey s.m_id) <;>
    simp [World.run, World.step, World.blocked, World.goto, AsyncTCPClient.emit,
      AsyncTCPClient.modify, List.lookup, h, hec, hm, mapErase_of_mapFind_none]

/-- The write lambda run statement by statement with no other thread. -/
theorem solo_write_lambda (c : AsyncTCPClient) (session : Nat) (s : Session) (ec : ErrorCode)
    (h : c.sessions[session]? = some s) :
    ((World.mk c none [] [Pc.lambda_178 session Checkpoint.afterWrite ec]).run
      [0, 0, 0, 0, 0, 0, 0, 0, 0]).client = c.onWrite session ec := by
  by_cases hec : ec.value = 0
  · cases hf : s.m_was_cacelled
    · rw [onWrite_proceed c session s ec h hec hf]
      simp [World.run, World.step, World.blocked, World.goto, AsyncTCPClient.emit,
        AsyncTCPClient.modify, List.lookup, h, hec, hf]
    · rw [onWrite_cancelled c session s ec h hec hf]
      cases hm : mapFind c.m_active_sessions (toKey s.m_id) <;>
      simp [World.run, World.step, World.blocked, World.goto, AsyncTCPClient.emit,
        AsyncTCPClient.modify, List.lookup, h, hec, hf, hm, Session.classification,
        mapErase_of_mapFind_none]
  · rw [onWrite_error c session s ec h hec]
    cases hm : mapFind c.m_active_sessions (toKey s.m_id) <;>
    simp [World.run, World.step, World.blocked, World.goto, AsyncTCPClient.emit,
      AsyncTCPClient.modify, List.lookup, h, hec, hm, mapErase_of_mapFind_none]

/-- No thread can run in the world `deadlocked`. -/
theorem deadlocked_step (t : Nat) : deadlocked.step t = deadlocked := by
  have hthreads : deadlocked.threads = [Pc.complete_83 0 true, Pc.cancel_133 0] := by decide
  match t with
  | 0 => decide
  | 1 => decide
  | t + 2 =>
    simp [World.step, World.blocked, hthreads]

/-- No schedule changes the world `deadlocked`. -/
theorem deadlocked_run (schedule : List Nat) : deadlocked.run schedule = deadlocked := by
  induction schedule with
  | nil => rfl
  | cons t rest ih =>
    simp only [World.run, deadlocked_step, ih]

/-! ## C1: registering an id that is already present -/

/-- C2, the code at the failing input: request 1 is cancelled, its connect
then completes with success on a worker thread, and the main thread calls
`cancelrequest(1)` again while the connect lambda runs. After the worker has
taken the session lock (line 185) and the main thread the registry lock
(line 128), the worker, inside `onRequestComplete`, waits for the registry lock
(line 83) and the main thread waits for the session lock (line 133): both
threads are blocked, no schedule changes the world again, `onRequestComplete`
has started once and the callback of request 1 is never made. When the connect
lambda finishes before the second `cancelrequest` starts, the callback is made
once. -/
theorem callback_never_made_in_deadlock :
    deadlocked.threads = [Pc.complete_83 0 true, Pc.cancel_133 0] ∧
    deadlocked.registry_owner = some 1 ∧
    deadlocked.session_owners = [(0, 0)] ∧
    deadlocked.blocked 0 = true ∧
    deadlocked.blocked 1 = true ∧
    requestCompletes deadlocked.client.trace = [Event.sock_shutdown 0] ∧
    (∀ schedule : List Nat,
      deadlocked.run schedule = deadlocked ∧
      callbacks (deadlocked.run schedule).client.trace = []) ∧
    callbacks (overlappingCancel.run
      [0, 0, 0, 0, 0, 0, 0, 0, 0, 1, 1, 1]).client.trace =
      [Event.callback 0 handler 1 [] operation_aborted []] := by
  refine ⟨by decide, by decide, by decide, by decide, by decide, by decide, ?_, by decide⟩
  intro schedule
  rw [deadlocked_run schedule]
  exact ⟨rfl, by decide⟩

/-! ## C3: the session leaves the registry before the callback runs -/

/-- C3: for every client state and every stored session, `onRequestComplete`
makes exactly one callback, as its last effect; the registry content at the
instant of that call has no entry under the key of the session id and agrees
with the registry before the call on every other key. -/
theorem removal_precedes_notification (c : AsyncTCPClient) (session : Nat) (s : Session)
    (h : c.sessions[session]? = some s) :
    ∃ active,
      (c.onRequestComplete session).trace = c.trace ++
        [Event.sock_shutdown session, Event.lock_registry, Event.unlock_registry,
          Event.callback session s.m_callback s.m_id s.m_response s.classification active] ∧
      mapFind active (toKey s.m_id) = none ∧
      (∀ k, k ≠ toKey s.m_id → mapFind active k = mapFind c.m_active_sessions k) ∧
      (c.onRequestComplete session).m_active_sessions = active := by
  rw [onRequestComplete_eq c session s h]
  exact ⟨_, rfl, mapFind_mapErase_self _ _, fun k hk => mapFind_mapErase_ne _ _ _ hk, rfl⟩

/-- Instance of `removal_precedes_notification`: session 0 of the client with
id 1 in flight; the callback sees an empty registry. -/
theorem removal_precedes_notification_witness :
    oneInFlight.sessions[0]? = some
      { Session.new "127.0.0.1" 8080 "Hello Server\n".toList 1 handler with
        m_sock := ⟨true, some AsyncOp.connect⟩ } ∧
    mapFind (oneInFlight.onRequestComplete 0).m_active_sessions (toKey 1) = none := by
  refine ⟨by decide, ?_⟩
  obtain ⟨active, -, hnone, -, hact⟩ := removal_precedes_notification oneInFlight 0 _
    (by decide : oneInFlight.sessions[0]? = some
      { Session.new "127.0.0.1" 8080 "Hello Server\n".toList 1 handler with
        m_sock := ⟨true, some AsyncOp.connect⟩ })
  rw [hact]
  exact hnone

/-! ## C4: one classification for both cancellation races -/

/-- C4: for every stored session, (a) a connect, write or read stage that
completes with the native code `operation_aborted` makes the callback receive
`operation_aborted`, and (b) terminal handling of a session whose stored error
value is 0 and whose cancellation flag is set makes the callback receive
`operation_aborted` as well: the same value in both races. -/
theorem cancellation_is_normalized (c : AsyncTCPClient) (session : Nat) (s : Session)
    (h : c.sessions[session]? = some s) :
    (∃ active, callbacks (c.onConnect session operation_aborted).trace = callbacks c.trace ++
      [Event.callback session s.m_callback s.m_id s.m_response operation_aborted active]) ∧
    (∃ active, callbacks (c.onWrite session operation_aborted).trace = callbacks c.trace ++
      [Event.callback session s.m_callback s.m_id s.m_response operation_aborted active]) ∧
    (∃ active, callbacks (c.onRead session operation_aborted).trace = callbacks c.trace ++
      [Event.callback session s.m_callback s.m_id s.m_response operation_aborted active]) ∧
    (s.m_ec.value = 0 → s.m_was_cacelled = true →
      ∃ active, callbacks (c.onRequestComplete session).trace = callbacks c.trace ++
        [Event.callback session s.m_callback s.m_id s.m_response operation_aborted active]) := by
  have hab : operation_aborted.value ≠ 0 := by decide
  refine ⟨?_, ?_, ?_, ?_⟩
  · rw [onConnect_error c session s _ h hab]
    exact ⟨_, by rw [callbacks_append]; rfl⟩
  · rw [onWrite_error c session s _ h hab]
    exact ⟨_, by rw [callbacks_append]; rfl⟩
  · rw [onRead_error c session s _ h hab]
    exact ⟨_, by rw [callbacks_append]; rfl⟩
  · intro hv hf
    rw [onRequestComplete_eq c session s h]
    have hcls : s.classification = operation_aborted := by
      simp [Session.classification, hv, hf]
    exact ⟨_, by rw [callbacks_append, hcls]; rfl⟩

/-- Instance of `cancellation_is_normalized`: (a) session 0 of the client with
id 1 in flight, when its connect completes with the native code; (b) the same
session after `cancelrequest(1)`, flag set and no error stored, at terminal
handling. -/
theorem cancellation_is_normalized_witness :
    oneInFlight.sessions[0]? = some
      { Session.new "127.0.0.1" 8080 "Hello Server\n".toList 1 handler with
        m_sock := ⟨true, some AsyncOp.connect⟩ } ∧
    oneCancelled.sessions[0]? = some
      { Session.new "127.0.0.1" 8080 "Hello Server\n".toList 1 handler with
        m_sock := ⟨true, some AsyncOp.connect⟩
        m_was_cacelled := true } ∧
    (∃ active, callbacks (oneInFlight.onConnect 0 operation_aborted).trace =
      callbacks oneInFlight.trace ++ [Event.callback 0 handler 1 [] operation_aborted active]) ∧
    (∃ active, callbacks (oneCancelled.onRequestComplete 0).trace =
      callbacks oneCancelled.trace ++ [Event.callback 0 handler 1 [] operation_aborted active]) :=
  ⟨by decide, by decide,
    (cancellation_is_normalized oneInFlight 0 _
      (by decide : oneInFlight.sessions[0]? = some
        { Session.new "127.0.0.1" 8080 "Hello Server\n".toList 1 handler with
          m_sock := ⟨true, some AsyncOp.connect⟩ })).1,
    (cancellation_is_normalized oneCancelled 0 _
      (by decide : oneCancelled.sessions[0]? = some
        { Session.new "127.0.0.1" 8080 "Hello Server\n".toList 1 handler with
          m_sock := ⟨true, some AsyncOp.connect⟩
          m_was_cacelled := true })).2.2.2 rfl rfl⟩

/-! ## C5: cancelling before the connect completes -/

/-- C5, refuted as stated: request id 1 is cancelled while its connect is
outstanding, then the connect completes with `connection_refused`; the callback
receives `connection_refused`, not `operation_aborted`. -/
theorem cancelled_connect_reports_refusal :
    callbacks ((oneInFlight.cancelrequest 1).complete 0 connection_refused []).trace =
      [Event.callback 0 handler 1 [] connection_refused []] ∧
    connection_refused ≠ operation_aborted := by
  decide

/-- C5, amended: in every state reached from the unused client, for every
session registered under its id with its connect outstanding, if `cancelrequest`
runs before the connect completion lambda, then whatever code the connect
reports exactly one callback is made, with an empty response, neither the write
nor the read stage is issued and nothing stays outstanding; the classification
is `operation_aborted` when the connect reports success (value 0), and the
reported code itself otherwise, which is `operation_aborted` for the native
code. -/
theorem cancel_before_connect (history : List Action) (c : AsyncTCPClient)
    (id session : Nat) (s : Session) (ec : ErrorCode) (data : List Char)
    (hreach : c = AsyncTCPClient.empty.run history)
    (hreg : mapFind c.m_active_sessions (toKey id) = some session)
    (h : c.sessions[session]? = some s)
    (hout : s.m_sock.outstanding = some AsyncOp.connect) :
    (∃ active, callbacks ((c.cancelrequest id).complete session ec data).trace =
      callbacks c.trace ++ [Event.callback session s.m_callback s.m_id []
        (if ec.value = 0 then operation_aborted else ec) active]) ∧
    issues ((c.cancelrequest id).complete session ec data).trace = issues c.trace ∧
    ((c.cancelrequest id).complete session ec data).outstanding session = none ∧
    (ec = operation_aborted → (if ec.value = 0 then operation_aborted else ec)
      = operation_aborted) := by
  subst hreach
  have hfresh := reachable_outstanding_fresh history session s h (by simp [hout])
  exact cancel_then_connect_fresh _ id session s ec data hreg h hout
    (by rw [hfresh.1]; rfl) hfresh.2

/-- Instance of `cancel_before_connect`: id 1 cancelled, then the connect
succeeds; the callback receives an empty response and `operation_aborted`. -/
theorem cancel_before_connect_witness :
    oneInFlight = AsyncTCPClient.empty.run [Action.submit "127.0.0.1" 8080 handler 1] ∧
    mapFind oneInFlight.m_active_sessions (toKey 1) = some 0 ∧
    oneInFlight.sessions[0]? = some
      { Session.new "127.0.0.1" 8080 "Hello Server\n".toList 1 handler with
        m_sock := ⟨true, some AsyncOp.connect⟩ } ∧
    ∃ active, callbacks ((oneInFlight.cancelrequest 1).complete 0 ErrorCode.success []).trace =
      callbacks oneInFlight.trace ++ [Event.callback 0 handler 1 [] operation_aborted active] :=
  ⟨rfl, by decide, by decide,
    (cancel_before_connect [Action.submit "127.0.0.1" 8080 handler 1] oneInFlight 1 0 _
      ErrorCode.success [] rfl (by decide)
      (by decide : oneInFlight.sessions[0]? = some
        { Session.new "127.0.0.1" 8080 "Hello Server\n".toList 1 handler with
          m_sock := ⟨true, some AsyncOp.connect⟩ }) rfl).1⟩

/-! ## C6: cancelling an id that is not registered -/

/-- C6: for every client state and every request id that is not a key of the
registry, `cancelrequest` only takes and releases the registry lock: the
registry and every stored session (its cancellation flag included) are
unchanged, no socket is cancelled and no callback is made. This covers the id
of a session whose terminal handling has run: after `onRequestComplete` the id
is not a key, so cancelling it changes nothing and makes no second callback. -/
theorem cancel_unknown_is_noop (c : AsyncTCPClient) (id session : Nat) (s : Session) :
    (mapFind c.m_active_sessions (toKey id) = none →
      (c.cancelrequest id).m_active_sessions = c.m_active_sessions ∧
      (c.cancelrequest id).sessions = c.sessions ∧
      (c.cancelrequest id).trace = c.trace ++ [Event.lock_registry, Event.unlock_registry] ∧
      callbacks (c.cancelrequest id).trace = callbacks c.trace) ∧
    (c.sessions[session]? = some s →
      ((c.onRequestComplete session).cancelrequest s.m_id).m_active_sessions
        = (c.onRequestComplete session).m_active_sessions ∧
      ((c.onRequestComplete session).cancelrequest s.m_id).sessions
        = (c.onRequestComplete session).sessions ∧
      ((c.onRequestComplete session).cancelrequest s.m_id).trace
        = (c.onRequestComplete session).trace ++ [Event.lock_registry, Event.unlock_registry] ∧
      callbacks ((c.onRequestComplete session).cancelrequest s.m_id).trace
        = callbacks (c.onRequestComplete session).trace) := by
  have key : ∀ (d : AsyncTCPClient) (i : Nat), mapFind d.m_active_sessions (toKey i) = none →
      (d.cancelrequest i).m_active_sessions = d.m_active_sessions ∧
      (d.cancelrequest i).sessions = d.sessions ∧
      (d.cancelrequest i).trace = d.trace ++ [Event.lock_registry, Event.unlock_registry] ∧
      callbacks (d.cancelrequest i).trace = callbacks d.trace := by
    intro d i hd
    rw [cancelrequest_absent d i hd]
    refine ⟨rfl, rfl, rfl, ?_⟩
    simp [callbacks, Event.isCallback]
  refine ⟨key c id, ?_⟩
  intro h
  apply key
  rw [onRequestComplete_eq c session s h]
  exact mapFind_mapErase_self _ _

/-- Instance of `cancel_unknown_is_noop`: `cancelrequest 2` on the client that
has only id 1 in flight, and `cancelrequest 1` after session 0 has finished. -/
theorem cancel_unknown_is_noop_witness :
    mapFind oneInFlight.m_active_sessions (toKey 2) = none ∧
    (oneInFlight.cancelrequest 2).sessions = oneInFlight.sessions ∧
    callbacks ((oneInFlight.onRequestComplete 0).cancelrequest 1).trace
      = callbacks (oneInFlight.onRequestComplete 0).trace :=
  ⟨by decide,
    ((cancel_unknown_is_noop oneInFlight 2 0
      { Session.new "127.0.0.1" 8080 "Hello Server\n".toList 1 handler with
        m_sock := ⟨true, some AsyncOp.connect⟩ }).1 (by decide)).2.1,
    ((cancel_unknown_is_noop oneInFlight 2 0
      { Session.new "127.0.0.1" 8080 "Hello Server\n".toList 1 handler with
        m_sock := ⟨true, some AsyncOp.connect⟩ }).2 (by decide)).2.2.2⟩

/-! ## C7: the response is the first line of the buffer -/

/-- C7: for every stored session whose read is outstanding, if the read
succeeds and the response buffer then holds at least one newline, the session
response becomes exactly the characters before the first newline: the buffer is
that response, then a newline, then what stays in the buffer; the response
holds no newline; and this response is what the callback receives. -/
theorem response_is_first_line (c : AsyncTCPClient) (session : Nat) (s : Session)
    (ec : ErrorCode) (data : List Char)
    (h : c.sessions[session]? = some s)
    (hout : s.m_sock.outstanding = some AsyncOp.read)
    (hec : ec.value = 0)
    (hnl : newline ∈ s.m_response_buf ++ data) :
    (c.complete session ec data).sessions[session]? = some
      { s with
        m_sock := ⟨s.m_sock.is_open, none⟩
        m_response := getlineText (s.m_response_buf ++ data)
        m_response_buf := getlineRest (s.m_response_buf ++ data) } ∧
    s.m_response_buf ++ data = getlineText (s.m_response_buf ++ data) ++
      newline :: getlineRest (s.m_response_buf ++ data) ∧
    newline ∉ getlineText (s.m_response_buf ++ data) ∧
    getlineText (s.m_response_buf ++ data)
      = (s.m_response_buf ++ data).takeWhile (fun ch => ch != newline) ∧
    callbacks (c.complete session ec data).trace = callbacks c.trace ++
      [Event.callback session s.m_callback s.m_id (getlineText (s.m_response_buf ++ data))
        s.classification (mapErase c.m_active_sessions (toKey s.m_id))] := by
  rw [complete_read c session s ec data h hout]
  have h3 := modify_get c session s
    (fun s => { s with
      m_sock := { s.m_sock with outstanding := none }
      m_response_buf := s.m_response_buf ++ data }) h
  rw [onRead_success _ session _ ec h3 hec]
  refine ⟨by simp [h], getline_split _ hnl, newline_not_mem_getlineText _,
    getlineText_eq_takeWhile _, ?_⟩
  simp [callbacks, Event.isCallback, Session.classification]

/-- Instance of `response_is_first_line`: the reply produced by
`Service::processRequest` reaches the callback of request 1 as "Hello Client"
with the success code. -/
theorem response_is_first_line_witness :
    oneReading.sessions[0]? = some
      { Session.new "127.0.0.1" 8080 "Hello Server\n".toList 1 handler with
        m_sock := ⟨true, some AsyncOp.read⟩ } ∧
    ((Service.new 0).processRequest).2 = "Hello Client\n".toList ∧
    callbacks (oneReading.complete 0 ErrorCode.success ((Service.new 0).processRequest).2).trace
      = [Event.callback 0 handler 1 "Hello Client".toList ErrorCode.success []] := by
  refine ⟨by decide, by decide, ?_⟩
  rw [(response_is_first_line oneReading 0 _ ErrorCode.success ((Service.new 0).processRequest).2
    (by decide : oneReading.sessions[0]? = some
      { Session.new "127.0.0.1" 8080 "Hello Server\n".toList 1 handler with
        m_sock := ⟨true, some AsyncOp.read⟩ }) rfl rfl (by decide)).2.2.2.2]
  decide

/-! ## C8: the number of worker threads -/

/-- C9, the code at the failing inputs: when the read succeeds, whatever data
arrived and however the write ends, the run of a `Service` issues its write,
then never calls `onFinish`: the object is not deleted although nothing is
outstanding on it. After a read that fails with `eof`, `onFinish` runs once, and the unused
method `onResponseSent` would run it once. -/
theorem service_not_finished_after_write (sock : Nat) (category : ErrorCategory)
    (data : List Char) (write_ec : ErrorCode) (sv : Service) :
    (Service.run sock ⟨0, category⟩ data write_ec).finishCount = 0 ∧
    (Service.run sock ⟨0, category⟩ data write_ec).deleted = false ∧
    (Service.run sock ⟨0, category⟩ data write_ec).outstanding = none ∧
    (Service.run sock ⟨0, category⟩ data write_ec).m_response = "Hello Client\n".toList ∧
    (Service.run sock eof data write_ec).finishCount = 1 ∧
    (sv.onResponseSent write_ec).finishCount = sv.finishCount + 1 := by
  refine ⟨?_, ?_, ?_, ?_, ?_, ?_⟩
  · by_cases hw : write_ec.value = 0 <;>
      simp [Service.run, Service.complete, Service.startHandling, Service.new,
        Service.onRequestRecieved, Service.processRequest, Service.onWritten,
        Service.finishCount, hw]
  · by_cases hw : write_ec.value = 0 <;>
      simp [Service.run, Service.complete, Service.startHandling, Service.new,
        Service.onRequestRecieved, Service.processRequest, Service.onWritten, hw]
  · by_cases hw : write_ec.value = 0 <;>
      simp [Service.run, Service.complete, Service.startHandling, Service.new,
        Service.onRequestRecieved, Service.processRequest, Service.onWritten, hw]
  · by_cases hw : write_ec.value = 0 <;>
      simp [Service.run, Service.complete, Service.startHandling, Service.new,
        Service.onRequestRecieved, Service.processRequest, Service.onWritten, hw]
  · simp [Service.run, Service.complete, Service.startHandling, Service.new,
      Service.onRequestRecieved, Service.onFinish, Service.finishCount, eof]
  · by_cases hw : write_ec.value = 0 <;>
      simp [Service.onResponseSent, Service.onFinish, Service.finishCount, hw]

/-! ## C10: the two cancellation checkpoints -/

/-- C10: in every state reached from the unused client, for every stored
session, when its connect (or its write) completes with success: if the
cancellation flag is set, the write (or the read) is not issued, nothing stays
outstanding, and the callback is made with classification `operation_aborted`;
if the flag is unset, the write (or the read) is issued and is outstanding, and
no callback is made. -/
theorem checkpoint_decides_next_stage (history : List Action) (c : AsyncTCPClient)
    (session : Nat) (s : Session) (ec : ErrorCode) (data : List Char)
    (hreach : c = AsyncTCPClient.empty.run history)
    (h : c.sessions[session]? = some s) (hec : ec.value = 0) :
    (s.m_sock.outstanding = some AsyncOp.connect → s.m_was_cacelled = true →
      issues (c.complete session ec data).trace = issues c.trace ∧
      (c.complete session ec data).outstanding session = none ∧
      callbacks (c.complete session ec data).trace = callbacks c.trace ++
        [Event.callback session s.m_callback s.m_id s.m_response operation_aborted
          (mapErase c.m_active_sessions (toKey s.m_id))]) ∧
    (s.m_sock.outstanding = some AsyncOp.write → s.m_was_cacelled = true →
      issues (c.complete session ec data).trace = issues c.trace ∧
      (c.complete session ec data).outstanding session = none ∧
      callbacks (c.complete session ec data).trace = callbacks c.trace ++
        [Event.callback session s.m_callback s.m_id s.m_response operation_aborted
          (mapErase c.m_active_sessions (toKey s.m_id))]) ∧
    (s.m_sock.outstanding = some AsyncOp.connect → s.m_was_cacelled = false →
      issues (c.complete session ec data).trace = issues c.trace ++
        [Event.async_write session] ∧
      (c.complete session ec data).outstanding session = some AsyncOp.write ∧
      callbacks (c.complete session ec data).trace = callbacks c.trace) ∧
    (s.m_sock.outstanding = some AsyncOp.write → s.m_was_cacelled = false →
      issues (c.complete session ec data).trace = issues c.trace ++
        [Event.async_read_until session] ∧
      (c.complete session ec data).outstanding session = some AsyncOp.read ∧
      callbacks (c.complete session ec data).trace = callbacks c.trace) := by
  subst hreach
  have hfresh : s.m_sock.outstanding ≠ none → s.m_ec.value = 0 := by
    intro hne
    rw [(reachable_outstanding_fresh history session s h hne).1]
    rfl
  refine ⟨?_, ?_, ?_, ?_⟩
  · intro hout hf
    exact (checkpoint_of_no_stored_error _ session s ec data h hec
      (hfresh (by simp [hout]))).1 hout hf
  · intro hout hf
    exact (checkpoint_of_no_stored_error _ session s ec data h hec
      (hfresh (by simp [hout]))).2.1 hout hf
  · intro hout hf
    exact (checkpoint_of_no_stored_error _ session s ec data h hec
      (hfresh (by simp [hout]))).2.2.1 hout hf
  · intro hout hf
    exact (checkpoint_of_no_stored_error _ session s ec data h hec
      (hfresh (by simp [hout]))).2.2.2 hout hf

/-- Instance of `checkpoint_decides_next_stage`: on the client with id 1 in
flight and the flag unset, a successful connect issues the write; after
`cancelrequest(1)`, a successful connect issues nothing and the callback
receives `operation_aborted`. -/
theorem checkpoint_decides_next_stage_witness :
    oneInFlight = AsyncTCPClient.empty.run [Action.submit "127.0.0.1" 8080 handler 1] ∧
    oneCancelled = AsyncTCPClient.empty.run
      [Action.submit "127.0.0.1" 8080 handler 1, Action.cancel 1] ∧
    ErrorCode.success.value = 0 ∧
    issues (oneInFlight.complete 0 ErrorCode.success []).trace =
      issues oneInFlight.trace ++ [Event.async_write 0] ∧
    issues (oneCancelled.complete 0 ErrorCode.success []).trace = issues oneCancelled.trace ∧
    callbacks (oneCancelled.complete 0 ErrorCode.success []).trace =
      [Event.callback 0 handler 1 [] operation_aborted []] := by
  have hflight : oneInFlight.sessions[0]? = some
      { Session.new "127.0.0.1" 8080 "Hello Server\n".toList 1 handler with
        m_sock := ⟨true, some AsyncOp.connect⟩ } := by decide
  have hcancel : oneCancelled.sessions[0]? = some
      { Session.new "127.0.0.1" 8080 "Hello Server\n".toList 1 handler with
        m_sock := ⟨true, some AsyncOp.connect⟩
        m_was_cacelled := true } := by decide
  have h1 := (checkpoint_decides_next_stage [Action.submit "127.0.0.1" 8080 handler 1]
    oneInFlight 0 _ ErrorCode.success [] rfl hflight rfl).2.2.1 rfl rfl
  have h2 := (checkpoint_decides_next_stage
    [Action.submit "127.0.0.1" 8080 handler 1, Action.cancel 1]
    oneCancelled 0 _ ErrorCode.success [] rfl hcancel rfl).1 rfl rfl
  refine ⟨rfl, rfl, rfl, h1.1, h2.1, ?_⟩
  rw [h2.2.2]
  decide

/-! ## C11: the order in which the two locks are taken -/

/-- C11, the code at the failing inputs: when the connect (or the write) of a
session completes with success and the cancellation flag is set, the
completion lambda takes the session lock, then `onRequestComplete` takes the
registry lock while the session lock is still held, and the callback runs
before the session lock is released; `cancelrequest` takes the two locks in the
opposite order, registry lock first. -/
theorem registry_lock_inside_session_lock :
    (oneCancelled.complete 0 ErrorCode.success []).trace = oneCancelled.trace ++
      [Event.lock_session 0, Event.sock_shutdown 0, Event.lock_registry,
        Event.unlock_registry, Event.callback 0 handler 1 [] operation_aborted [],
        Event.unlock_session 0] ∧
    lockOrderOk [] (oneCancelled.complete 0 ErrorCode.success []).trace = false ∧
    (oneCancelledWriting.complete 0 ErrorCode.success []).trace = oneCancelledWriting.trace ++
      [Event.lock_session 0, Event.sock_shutdown 0, Event.lock_registry,
        Event.unlock_registry, Event.callback 0 handler 1 [] operation_aborted [],
        Event.unlock_session 0] ∧
    lockOrderOk [] (oneCancelledWriting.complete 0 ErrorCode.success []).trace = false ∧
    (oneInFlight.cancelrequest 1).trace = oneInFlight.trace ++
      [Event.lock_registry, Event.lock_session 0, Event.sock_cancel 0,
        Event.unlock_session 0, Event.unlock_registry] ∧
    lockOrderOk [] (oneInFlight.cancelrequest 1).trace = true := by
  decide

/-! ## C12: a stage error ends the session and is reported as it is -/

/-- C12: in every state reached from the unused client, for every stored
session with its connect, write or read outstanding and every error code `e`
with a non-zero value, if the stage completes with `e` then no later stage is
issued, nothing stays outstanding, and exactly one callback is made, which
receives `e` itself and an empty response. -/
theorem stage_error_reported (history : List Action) (c : AsyncTCPClient)
    (session : Nat) (s : Session) (e : ErrorCode) (data : List Char)
    (hreach : c = AsyncTCPClient.empty.run history)
    (h : c.sessions[session]? = some s)
    (hout : s.m_sock.outstanding ≠ none) (he : e.value ≠ 0) :
    callbacks (c.complete session e data).trace = callbacks c.trace ++
      [Event.callback session s.m_callback s.m_id [] e
        (mapErase c.m_active_sessions (toKey s.m_id))] ∧
    issues (c.complete session e data).trace = issues c.trace ∧
    (c.complete session e data).outstanding session = none := by
  subst hreach
  have hfresh := reachable_outstanding_fresh history session s h hout
  obtain ⟨htrace, hnone⟩ := complete_failure _ session s e data h hout he
  rw [htrace, hfresh.2]
  refine ⟨?_, ?_, hnone⟩
  · simp [callbacks, Event.isCallback]
  · simp [issues, Event.isIssue]

/-- Instance of `stage_error_reported`: the connect of request 1 is refused. -/
theorem stage_error_reported_witness :
    oneInFlight = AsyncTCPClient.empty.run [Action.submit "127.0.0.1" 8080 handler 1] ∧
    oneInFlight.sessions[0]? = some
      { Session.new "127.0.0.1" 8080 "Hello Server\n".toList 1 handler with
        m_sock := ⟨true, some AsyncOp.connect⟩ } ∧
    connection_refused.value ≠ 0 ∧
    callbacks (oneInFlight.complete 0 connection_refused []).trace =
      [Event.callback 0 handler 1 [] connection_refused []] := by
  refine ⟨rfl, by decide, by decide, ?_⟩
  rw [(stage_error_reported [Action.submit "127.0.0.1" 8080 handler 1] oneInFlight 0 _
    connection_refused [] rfl
    (by decide : oneInFlight.sessions[0]? = some
      { Session.new "127.0.0.1" 8080 "Hello Server\n".toList 1 handler with
        m_sock := ⟨true, some AsyncOp.connect⟩ }) (by decide) (by decide)).1]
  decide

/-! ## C13: whether a failure can be reported as a cancellation -/

/-- C13, refuted as stated: there is no client state, stored session with its
flag set and an operation outstanding, and error code with a non-zero value
other than `operation_aborted`, such that the stage completing with that code
makes the callback receive `operation_aborted`. -/
theorem no_failure_is_masked :
    ¬ ∃ (c : AsyncTCPClient) (session : Nat) (s : Session) (e : ErrorCode) (data : List Char)
        (response : List Char) (active : List (Int × Nat)),
      c.sessions[session]? = some s ∧ s.m_sock.outstanding ≠ none ∧
      s.m_was_cacelled = true ∧ e.value ≠ 0 ∧ e ≠ operation_aborted ∧
      callbacks (c.complete session e data).trace = callbacks c.trace ++
        [Event.callback session s.m_callback s.m_id response operation_aborted active] := by
  rintro ⟨c, session, s, e, data, response, active, h, hout, -, he, hne, hcb⟩
  rw [(complete_failure c session s e data h hout he).1] at hcb
  simp [callbacks, Event.isCallback] at hcb
  exact hne hcb.2.1

/-- C13, amended: for every stored session with an operation outstanding and
its cancellation flag set, a stage that fails with an error code of non-zero
value makes the callback receive that code itself, so a failure other than the
native cancel code is never reported as `operation_aborted`; with the flag set,
terminal handling delivers `operation_aborted` exactly when the stored error
value is 0 or the stored error is `operation_aborted` itself. -/
theorem failure_reported_despite_cancel (c : AsyncTCPClient) (session : Nat) (s : Session)
    (e : ErrorCode) (data : List Char)
    (h : c.sessions[session]? = some s)
    (hout : s.m_sock.outstanding ≠ none)
    (hflag : s.m_was_cacelled = true) (he : e.value ≠ 0) :
    callbacks (c.complete session e data).trace = callbacks c.trace ++
      [Event.callback session s.m_callback s.m_id s.m_response e
        (mapErase c.m_active_sessions (toKey s.m_id))] ∧
    (s.classification = operation_aborted ↔
      (s.m_ec.value = 0 ∨ s.m_ec = operation_aborted)) := by
  refine ⟨?_, ?_⟩
  · rw [(complete_failure c session s e data h hout he).1]
    simp [callbacks, Event.isCallback]
  · by_cases hv : s.m_ec.value = 0
    · simp [Session.classification, hv, hflag]
    · simp [Session.classification, hv]

/-- Instance of `failure_reported_despite_cancel`: request 1 is cancelled, then
its connect is refused; the callback receives `connection_refused`. -/
theorem failure_reported_despite_cancel_witness :
    oneCancelled.sessions[0]? = some
      { Session.new "127.0.0.1" 8080 "Hello Server\n".toList 1 handler with
        m_sock := ⟨true, some AsyncOp.connect⟩
        m_was_cacelled := true } ∧
    connection_refused.value ≠ 0 ∧
    callbacks (oneCancelled.complete 0 connection_refused []).trace =
      callbacks oneCancelled.trace ++
        [Event.callback 0 handler 1 [] connection_refused []] := by
  refine ⟨by decide, by decide, ?_⟩
  rw [(failure_reported_despite_cancel oneCancelled 0 _ connection_refused []
    (by decide : oneCancelled.sessions[0]? = some
      { Session.new "127.0.0.1" 8080 "Hello Server\n".toList 1 handler with
        m_sock := ⟨true, some AsyncOp.connect⟩
        m_was_cacelled := true }) (by decide) rfl (by decide)).1]
  decide

/-! ## C14: one step of the acceptor -/

/-- C14, refuted as stated: on the started acceptor the first accept completes
with success, the worker inside `onAccept` loads the stop flag at line 129 and
finds it unset, and the main thread then calls `stop`; the flag is now set, and
the next statement of the worker, `InitAccept()` at line 131, issues the accept
of socket 1 and closes nothing. -/
theorem accept_issued_after_stop :
    stoppedAfterLoad.acceptor.m_isStopped = true ∧
    stoppedAfterLoad.pc = some OnAcceptPc.line_131 ∧
    acceptsIssued stoppedAfterLoad.acceptor.log = [AcceptorEvent.async_accept 0] ∧
    acceptsIssued (stoppedAfterLoad.move AcceptorMove.advance).acceptor.log =
      [AcceptorEvent.async_accept 0, AcceptorEvent.async_accept 1] ∧
    closes (stoppedAfterLoad.move AcceptorMove.advance).acceptor.log = [] ∧
    (stoppedAfterLoad.move AcceptorMove.advance).acceptor.is_open = true := by
  decide

/-- C14, amended: for every acceptor state and every completed accept,
`onAccept` constructs and starts a `Service` on the accepted socket exactly
when the accept succeeded (value 0); then, if the stop flag is unset, it issues
exactly one new accept, which is outstanding, and closes nothing; if the stop
flag is set, it issues no accept and closes the listening transport. Once the
stop flag is set, whatever the main thread, the reactor and the worker do next,
no accept is issued unless the worker had already loaded the flag unset and is
about to run line 131, and then at most that one accept is issued. The branch
is chosen by the value the flag has when line 129 runs. -/
theorem acceptor_step (a : Acceptor) (ec : ErrorCode) (sock : Nat)
    (pc : Option OnAcceptPc) (moves : List AcceptorMove) :
    (ec.value = 0 →
      (a.onAccept ec sock).services = a.services ++ [(Service.new sock).startHandling]) ∧
    (ec.value ≠ 0 → (a.onAccept ec sock).services = a.services) ∧
    (a.m_isStopped = false →
      acceptsIssued (a.onAccept ec sock).log
        = acceptsIssued a.log ++ [AcceptorEvent.async_accept a.next_sock] ∧
      closes (a.onAccept ec sock).log = closes a.log ∧
      (a.onAccept ec sock).is_open = a.is_open ∧
      (a.onAccept ec sock).outstanding = some a.next_sock) ∧
    (a.m_isStopped = true →
      acceptsIssued (a.onAccept ec sock).log = acceptsIssued a.log ∧
      closes (a.onAccept ec sock).log = closes a.log ++ [AcceptorEvent.close] ∧
      (a.onAccept ec sock).is_open = false ∧
      (a.onAccept ec sock).outstanding = a.outstanding) ∧
    (a.m_isStopped = true → pc ≠ some OnAcceptPc.line_131 →
      acceptsIssued ((AcceptorRun.mk a pc).run moves).acceptor.log = acceptsIssued a.log) ∧
    (a.m_isStopped = true → pc = some OnAcceptPc.line_131 →
      acceptsIssued ((AcceptorRun.mk a pc).run moves).acceptor.log = acceptsIssued a.log ∨
      acceptsIssued ((AcceptorRun.mk a pc).run moves).acceptor.log = acceptsIssued a.log ++
        [AcceptorEvent.async_accept a.next_sock]) ∧
    (AcceptorRun.mk a (some OnAcceptPc.line_129)).move AcceptorMove.advance =
      AcceptorRun.mk a
        (some (if a.m_isStopped then OnAcceptPc.line_135 else OnAcceptPc.line_131)) := by
  refine ⟨?_, ?_, onAccept_running a ec sock, ?_, ?_, ?_, ?_⟩
  · intro hec
    cases hs : a.m_isStopped <;> simp [Acceptor.onAccept, Acceptor.InitAccept, hec, hs]
  · intro hec
    cases hs : a.m_isStopped <;> simp [Acceptor.onAccept, Acceptor.InitAccept, hec, hs]
  · intro hs
    exact (onAccept_stopped a ec sock hs).2
  · intro hs hpc
    exact (run_after_stop moves ⟨a, pc⟩ hs).2.1 hpc
  · intro hs hpc
    exact (run_after_stop moves ⟨a, pc⟩ hs).2.2 hpc
  · cases hs : a.m_isStopped <;> simp [AcceptorRun.move, hs]

/-- Instance of `acceptor_step` on the acceptor started on port 8080: a
successful accept of socket 0 starts a `Service` and issues the accept of
socket 1; after `stop`, with no `onAccept` in progress, the completion of the
outstanding accept closes the transport, and the delivery of that completion,
the three program points of `onAccept`, a further delivery and a `stop` issue
nothing. -/
theorem acceptor_step_witness :
    ErrorCode.success.value = 0 ∧ eof.value ≠ 0 ∧
    startedAcceptor.m_isStopped = false ∧ startedAcceptor.stop.m_isStopped = true ∧
    (startedAcceptor.onAccept ErrorCode.success 0).services = [(Service.new 0).startHandling] ∧
    (startedAcceptor.onAccept eof 0).services = [] ∧
    acceptsIssued (startedAcceptor.onAccept ErrorCode.success 0).log =
      [AcceptorEvent.async_accept 0, AcceptorEvent.async_accept 1] ∧
    closes (startedAcceptor.stop.onAccept ErrorCode.success 0).log = [AcceptorEvent.close] ∧
    acceptsIssued ((AcceptorRun.mk startedAcceptor.stop none).run
      [AcceptorMove.deliver ErrorCode.success, AcceptorMove.advance, AcceptorMove.advance,
        AcceptorMove.advance, AcceptorMove.deliver ErrorCode.success,
        AcceptorMove.stop]).acceptor.log = [AcceptorEvent.async_accept 0] := by
  have h1 := acceptor_step startedAcceptor ErrorCode.success 0 none []
  have h2 := acceptor_step startedAcceptor eof 0 none []
  have h3 := acceptor_step startedAcceptor.stop ErrorCode.success 0 none
    [AcceptorMove.deliver ErrorCode.success, AcceptorMove.advance, AcceptorMove.advance,
      AcceptorMove.advance, AcceptorMove.deliver ErrorCode.success, AcceptorMove.stop]
  refine ⟨rfl, by decide, rfl, rfl, ?_, ?_, ?_, ?_, ?_⟩
  · rw [h1.1 rfl]
    decide
  · rw [h2.2.1 (by decide)]
    decide
  · rw [(h1.2.2.1 rfl).1]
    decide
  · rw [(h3.2.2.2.1 rfl).2.1]
    decide
  · rw [h3.2.2.2.2.1 rfl (by decide)]
    decide

end Networking
